import Mathlib

/-
Verification of the three-d rendering layer (src/core/render_target.rs,
src/object/mesh.rs, src/object/skybox.rs, src/phong/deferred_pipeline.rs,
src/renderer.rs) against its natural-language specification.

The graphics context is embedded shallowly: every effectful graphics call is
recorded as a `GLCmd` in a trace, fallible calls return `Except GLError`,
mutable state (the lazily initialized shader-program statics, the pipeline's
program map, the CPU-side texture passed by `&mut`) is passed explicitly.
Rust `f32` values are only ever stored and forwarded by this code (no
floating-point arithmetic is performed on them), so they are carried by an
arbitrary decidable type.
-/

namespace ThreeD

/-- Carrier for Rust f32 values. The embedded code only stores and forwards
these values, so any decidable carrier is faithful; `0` stands for the
literal `0.0` and `1` for `1.0`. -/
abbrev F32 := Int

/-- Variants of `three_d::core::Error` used by the embedded functions.
The enum definition itself lives outside the given sources; the variants and
their `message` payloads are taken from the construction sites in
`render_target.rs` and `mesh.rs`. -/
inductive GLError where
  | failedToCreateFramebuffer (message : String)
  | failedToCopyFromRenderTarget (message : String)
  | failedToCreateMesh (message : String)
  | failedToCreateBuffer (message : String)
  | unwrapPanic
  deriving DecidableEq, Repr

/-- Write mask: which of the red/green/blue/alpha/depth channels draw calls
and clears are allowed to write (`three_d::core::WriteMask`). -/
structure WriteMask where
  red : Bool
  green : Bool
  blue : Bool
  alpha : Bool
  depth : Bool
  deriving DecidableEq, Repr

/-- WriteMask::COLOR: write only the four color channels. -/
def WriteMask.COLOR : WriteMask :=
  { red := true, green := true, blue := true, alpha := true, depth := false }

/-- WriteMask::DEPTH: write only the depth channel. -/
def WriteMask.DEPTH : WriteMask :=
  { red := false, green := false, blue := false, alpha := false, depth := true }

/-- Default write mask: everything enabled. -/
def WriteMask.default : WriteMask :=
  { red := true, green := true, blue := true, alpha := true, depth := true }

/-- A recorded graphics-API call. Framebuffers, textures, shader programs and
buffers are identified by numeric ids. -/
inductive GLCmd where
  | bindFramebuffer (target : Nat) (fb : Option Nat)
  | createFramebuffer (id : Nat)
  | deleteFramebuffer (id : Nat)
  | drawBuffers (attachments : List Nat)
  | bindColorTarget (tex : Nat) (channel : Nat)
  | bindDepthTarget (tex : Nat)
  | bindColorTargetLayer (tex : Nat) (layer : Nat) (channel : Nat)
  | bindDepthTargetLayer (tex : Nat) (layer : Nat)
  | setWriteMask (m : WriteMask)
  | clearColor (r : F32) (g : F32) (b : F32) (a : F32)
  | clearDepth (d : F32)
  | clearBuffers (color : Bool) (depthBit : Bool)
  | compileEffect (id : Nat)
  | useTexture (tex : Nat) (name : String)
  | useUniformInt (name : String) (v : Int)
  | useUniformVec3 (name : String)
  | useUniformVec4 (name : String)
  | useUniformMat4 (name : String)
  | bindLights (ambient : Bool) (directional : Nat) (spot : Nat) (point : Nat)
  | applyEffect (id : Nat) (wm : WriteMask)
  | useAttribute (name : String)
  | useUniformBlock (name : String)
  | drawElementsBuf (indices : List Nat)
  | drawArrays (count : Nat)
  | generateMipMaps (tex : Nat)
  deriving DecidableEq, Repr

/-- ClearState (render_target.rs:12): which channels to clear and to what
values; `none` in a field means the channel is not cleared. -/
structure ClearState where
  red : Option F32
  green : Option F32
  blue : Option F32
  alpha : Option F32
  depth : Option F32
  deriving DecidableEq, Repr

/-- ClearState::none (render_target.rs:24): nothing will be cleared. -/
def ClearState.none : ClearState :=
  { red := Option.none, green := Option.none, blue := Option.none,
    alpha := Option.none, depth := Option.none }

/-- ClearState::depth (render_target.rs:37): only the depth is cleared.
Named `depthOnly` because Lean reserves `ClearState.depth` for the field
projection. -/
def ClearState.depthOnly (depth : F32) : ClearState :=
  { red := Option.none, green := Option.none, blue := Option.none,
    alpha := Option.none, depth := some depth }

/-- ClearState::color (render_target.rs:50): only the four color channels are
cleared. -/
def ClearState.color (red green blue alpha : F32) : ClearState :=
  { red := some red, green := some green, blue := some blue,
    alpha := some alpha, depth := Option.none }

/-- ClearState::color_and_depth (render_target.rs:63): all five channels are
cleared. -/
def ClearState.color_and_depth (red green blue alpha depth : F32) : ClearState :=
  { red := some red, green := some green, blue := some blue,
    alpha := some alpha, depth := some depth }

/-- Default for ClearState (render_target.rs:74). -/
def ClearState.default : ClearState := ClearState.color_and_depth 0 0 0 1 1

/-- The write mask installed by `clear` (render_target.rs:750): each channel
enabled iff the corresponding ClearState field is `Some`. -/
def writeMaskOf (c : ClearState) : WriteMask :=
  { red := c.red.isSome, green := c.green.isSome, blue := c.blue.isSome,
    alpha := c.alpha.isSome, depth := c.depth.isSome }

/-- The `clear_color` flag of `clear` (render_target.rs:760): some color
channel is requested. -/
def clearColorFlag (c : ClearState) : Bool :=
  c.red.isSome || c.green.isSome || c.blue.isSome || c.alpha.isSome

/-- Which buffer bits (color, depth) are passed to `context.clear`
(render_target.rs:775). -/
def clearBufferBits (c : ClearState) : Bool × Bool :=
  if clearColorFlag c && c.depth.isSome then (true, true)
  else if clearColorFlag c then (true, false)
  else (false, true)

/-- The free function `clear` (render_target.rs:749): install the write mask,
set the clear color (with the unwrap_or defaults 0,0,0,1) when any color
channel is requested, set the clear depth when requested, then issue the
buffer clear. -/
def clear (c : ClearState) : List GLCmd :=
  [GLCmd.setWriteMask (writeMaskOf c)]
  ++ (if clearColorFlag c then
        [GLCmd.clearColor (c.red.getD 0) (c.green.getD 0) (c.blue.getD 0) (c.alpha.getD 1)]
      else [])
  ++ (match c.depth with
      | some d => [GLCmd.clearDepth d]
      | Option.none => [])
  ++ [GLCmd.clearBuffers (clearBufferBits c).1 (clearBufferBits c).2]

/-- A set of channels, used to describe which channels a clear actually
writes. -/
structure ChannelSet where
  red : Bool
  green : Bool
  blue : Bool
  alpha : Bool
  depth : Bool
  deriving DecidableEq, Repr

/-- The channels actually written by the buffer clear issued by `clear`:
under GL semantics a color channel is written iff the color buffer bit is
passed to the clear and the write mask enables that channel, and likewise for
depth. -/
def clearedChannels (c : ClearState) : ChannelSet :=
  let m := writeMaskOf c
  let b := clearBufferBits c
  { red := m.red && b.1, green := m.green && b.1, blue := m.blue && b.1,
    alpha := m.alpha && b.1, depth := m.depth && b.2 }

/-- C2: the clear step enables writing of exactly the channels whose
ClearState fields are `Some` (both in the installed write mask and in the
channels the issued clear actually writes), the clear carries the given
values for those channels, and the four constructors set exactly the
advertised fields. -/
theorem C2_clear_exact_channels (c : ClearState) (d r g b a : F32) :
    writeMaskOf c = { red := c.red.isSome, green := c.green.isSome,
                      blue := c.blue.isSome, alpha := c.alpha.isSome,
                      depth := c.depth.isSome }
    ∧ clearedChannels c = { red := c.red.isSome, green := c.green.isSome,
                            blue := c.blue.isSome, alpha := c.alpha.isSome,
                            depth := c.depth.isSome }
    ∧ (clearColorFlag c = true →
        GLCmd.clearColor (c.red.getD 0) (c.green.getD 0) (c.blue.getD 0) (c.alpha.getD 1)
          ∈ clear c)
    ∧ (c.depth = some d → GLCmd.clearDepth d ∈ clear c)
    ∧ ClearState.none = { red := Option.none, green := Option.none,
                          blue := Option.none, alpha := Option.none,
                          depth := Option.none }
    ∧ ClearState.depthOnly d = { red := Option.none, green := Option.none,
                                 blue := Option.none, alpha := Option.none,
                                 depth := some d }
    ∧ ClearState.color r g b a = { red := some r, green := some g,
                                   blue := some b, alpha := some a,
                                   depth := Option.none }
    ∧ ClearState.color_and_depth r g b a d =
        { red := some r, green := some g, blue := some b, alpha := some a,
          depth := some d } := by
  refine ⟨rfl, ?_, ?_, ?_, rfl, rfl, rfl, rfl⟩
  · rcases c with ⟨cr, cg, cb, ca, cd⟩
    cases cr <;> cases cg <;> cases cb <;> cases ca <;> cases cd <;> rfl
  · intro h
    simp [clear, h]
  · intro h
    simp [clear, h]

/-- Witness for C2 at a concrete clear state with red and depth set. -/
theorem C2_clear_exact_channels_witness :
    GLCmd.clearColor 2 0 0 1 ∈ clear { red := some 2, green := Option.none,
                                       blue := Option.none, alpha := Option.none,
                                       depth := some 3 }
    ∧ GLCmd.clearDepth 3 ∈ clear { red := some 2, green := Option.none,
                                   blue := Option.none, alpha := Option.none,
                                   depth := some 3 } :=
  ⟨(C2_clear_exact_channels
      { red := some 2, green := Option.none, blue := Option.none,
        alpha := Option.none, depth := some 3 } 3 2 0 0 1).2.2.1 rfl,
   (C2_clear_exact_channels
      { red := some 2, green := Option.none, blue := Option.none,
        alpha := Option.none, depth := some 3 } 3 2 0 0 1).2.2.2.1 rfl⟩

/-- GL constant DRAW_FRAMEBUFFER used for binding draw framebuffers. -/
def consts.DRAW_FRAMEBUFFER : Nat := 36009

/-- GL constant COLOR_ATTACHMENT0. -/
def consts.COLOR_ATTACHMENT0 : Nat := 36064

/-- Rust `Option::and`: `none.and b = none`, `(some _).and b = b`. -/
def optAnd {α β : Type} : Option α → Option β → Option β
  | Option.none, _ => Option.none
  | some _, b => b

/-- Screen::write (render_target.rs:90): bind the default framebuffer, clear
with the given clear state, then run the render closure, propagating its
error with `?` and otherwise returning `Ok(())`. The closure is embedded as
the trace it emits plus its result. -/
def Screen.write (c : ClearState) (render : List GLCmd × Except GLError Unit) :
    List GLCmd × Except GLError Unit :=
  ([GLCmd.bindFramebuffer consts.DRAW_FRAMEBUFFER Option.none] ++ clear c ++ render.1,
   match render.2 with
   | Except.error e => Except.error e
   | Except.ok _ => Except.ok ())

/-- RenderTarget (render_target.rs:148): a framebuffer id plus optional color
and depth textures (identified by texture ids). -/
structure RenderTarget where
  id : Nat
  color_texture : Option Nat
  depth_texture : Option Nat
  deriving DecidableEq, Repr

/-- RenderTargetArray (render_target.rs:438): like RenderTarget but over
array textures. -/
structure RenderTargetArray where
  id : Nat
  color_texture : Option Nat
  depth_texture : Option Nat
  deriving DecidableEq, Repr

/-- The ClearState actually passed to `clear` by RenderTarget::write
(render_target.rs:214) and RenderTargetArray::write (render_target.rs:502):
each color field is kept only when a color texture is attached
(`self.color_texture.and(clear_state.red)` and so on), the depth field only
when a depth texture is attached. -/
def maskedBy (colorTex depthTex : Option Nat) (c : ClearState) : ClearState :=
  { red := optAnd colorTex c.red, green := optAnd colorTex c.green,
    blue := optAnd colorTex c.blue, alpha := optAnd colorTex c.alpha,
    depth := optAnd depthTex c.depth }

/-- RenderTarget::bind (render_target.rs:412): bind the framebuffer, then
attach the color texture (setting the draw buffer) and the depth texture when
present. The debug-feature status check is compiled out in the default
build. -/
def RenderTarget.bind (rt : RenderTarget) : List GLCmd :=
  [GLCmd.bindFramebuffer consts.DRAW_FRAMEBUFFER (some rt.id)]
  ++ (match rt.color_texture with
      | some t => [GLCmd.drawBuffers [consts.COLOR_ATTACHMENT0], GLCmd.bindColorTarget t 0]
      | Option.none => [])
  ++ (match rt.depth_texture with
      | some t => [GLCmd.bindDepthTarget t]
      | Option.none => [])

/-- RenderTarget::write (render_target.rs:208): bind, clear with the
texture-masked clear state, run the render closure (propagating its error
with `?`), and finally generate mip maps on the color texture when present. -/
def RenderTarget.write (rt : RenderTarget) (c : ClearState)
    (render : List GLCmd × Except GLError Unit) : List GLCmd × Except GLError Unit :=
  let pre := rt.bind ++ clear (maskedBy rt.color_texture rt.depth_texture c)
  match render with
  | (tr, Except.error e) => (pre ++ tr, Except.error e)
  | (tr, Except.ok _) =>
    (pre ++ tr ++ (match rt.color_texture with
                   | some t => [GLCmd.generateMipMaps t]
                   | Option.none => []),
     Except.ok ())

/-- RenderTargetArray::bind (render_target.rs:698): bind the framebuffer,
then for the requested color layers set the draw buffers and attach layer
`color_layers[channel]` at each channel, and attach the requested depth
layer. -/
def RenderTargetArray.bind (rt : RenderTargetArray) (colorLayers : Option (List Nat))
    (depthLayer : Option Nat) : List GLCmd :=
  [GLCmd.bindFramebuffer consts.DRAW_FRAMEBUFFER (some rt.id)]
  ++ (match rt.color_texture, colorLayers with
      | some t, some ls =>
        [GLCmd.drawBuffers ((List.range ls.length).map fun i => consts.COLOR_ATTACHMENT0 + i)]
        ++ ls.enum.map (fun p => GLCmd.bindColorTargetLayer t p.2 p.1)
      | _, _ => [])
  ++ (match rt.depth_texture, depthLayer with
      | some t, some l => [GLCmd.bindDepthTargetLayer t l]
      | _, _ => [])

/-- RenderTargetArray::write (render_target.rs:494): bind with the given
layers, clear with the texture-masked clear state, run the render closure,
then generate mip maps on the color texture when present. -/
def RenderTargetArray.write (rt : RenderTargetArray) (c : ClearState)
    (colorLayers : List Nat) (depthLayer : Nat)
    (render : List GLCmd × Except GLError Unit) : List GLCmd × Except GLError Unit :=
  let pre := rt.bind (some colorLayers) (some depthLayer)
    ++ clear (maskedBy rt.color_texture rt.depth_texture c)
  match render with
  | (tr, Except.error e) => (pre ++ tr, Except.error e)
  | (tr, Except.ok _) =>
    (pre ++ tr ++ (match rt.color_texture with
                   | some t => [GLCmd.generateMipMaps t]
                   | Option.none => []),
     Except.ok ())

/-- C8: the clear performed by RenderTarget::write and RenderTargetArray::write
is the requested one restricted to the attached textures: color channels are
cleared only when a color texture is attached, depth only when a depth
texture is attached; on a depth-only target no color channel is cleared and
on a color-only target depth is never cleared. -/
theorem C8_write_restricts_clear (rt : RenderTarget) (rta : RenderTargetArray)
    (c : ClearState) (tr : List GLCmd) (res : Except GLError Unit)
    (ls : List Nat) (dl : Nat) :
    clearedChannels (maskedBy rt.color_texture rt.depth_texture c) =
      { red := rt.color_texture.isSome && c.red.isSome,
        green := rt.color_texture.isSome && c.green.isSome,
        blue := rt.color_texture.isSome && c.blue.isSome,
        alpha := rt.color_texture.isSome && c.alpha.isSome,
        depth := rt.depth_texture.isSome && c.depth.isSome }
    ∧ List.IsInfix (clear (maskedBy rt.color_texture rt.depth_texture c))
        (RenderTarget.write rt c (tr, res)).1
    ∧ clearedChannels (maskedBy rta.color_texture rta.depth_texture c) =
      { red := rta.color_texture.isSome && c.red.isSome,
        green := rta.color_texture.isSome && c.green.isSome,
        blue := rta.color_texture.isSome && c.blue.isSome,
        alpha := rta.color_texture.isSome && c.alpha.isSome,
        depth := rta.depth_texture.isSome && c.depth.isSome }
    ∧ List.IsInfix (clear (maskedBy rta.color_texture rta.depth_texture c))
        (RenderTargetArray.write rta c ls dl (tr, res)).1
    ∧ (rt.color_texture = Option.none →
        clearedChannels (maskedBy rt.color_texture rt.depth_texture c) =
          { red := false, green := false, blue := false, alpha := false,
            depth := rt.depth_texture.isSome && c.depth.isSome })
    ∧ (rt.depth_texture = Option.none →
        (clearedChannels (maskedBy rt.color_texture rt.depth_texture c)).depth = false) := by
  have hmask : ∀ (ct dt : Option Nat),
      clearedChannels (maskedBy ct dt c) =
        { red := ct.isSome && c.red.isSome, green := ct.isSome && c.green.isSome,
          blue := ct.isSome && c.blue.isSome, alpha := ct.isSome && c.alpha.isSome,
          depth := dt.isSome && c.depth.isSome } := by
    intro ct dt
    rcases c with ⟨cr, cg, cb, ca, cd⟩
    cases ct <;> cases dt <;> cases cr <;> cases cg <;> cases cb <;> cases ca <;>
      cases cd <;> rfl
  refine ⟨hmask _ _, ?_, hmask _ _, ?_, ?_, ?_⟩
  · cases res with
    | error e =>
      exact ⟨rt.bind, tr, by simp [RenderTarget.write]⟩
    | ok u =>
      refine ⟨rt.bind, tr ++ (match rt.color_texture with
        | some t => [GLCmd.generateMipMaps t]
        | Option.none => []), ?_⟩
      simp [RenderTarget.write]
  · cases res with
    | error e =>
      exact ⟨rta.bind (some ls) (some dl), tr, by simp [RenderTargetArray.write]⟩
    | ok u =>
      refine ⟨rta.bind (some ls) (some dl), tr ++ (match rta.color_texture with
        | some t => [GLCmd.generateMipMaps t]
        | Option.none => []), ?_⟩
      simp [RenderTargetArray.write]
  · intro h
    rw [hmask _ _, h]
    rfl
  · intro h
    rw [hmask _ _, h]
    simp [Option.isSome]

/-- Witness for C8 at a depth-only render target and a color-only array
target, with a full color-and-depth clear request. -/
theorem C8_write_restricts_clear_witness :
    clearedChannels (maskedBy (Option.none : Option Nat) (some 5)
        (ClearState.color_and_depth 0 0 0 1 1)) =
      { red := false, green := false, blue := false, alpha := false, depth := true }
    ∧ (clearedChannels (maskedBy (some 4) (Option.none : Option Nat)
        (ClearState.color_and_depth 0 0 0 1 1))).depth = false := by
  have h := C8_write_restricts_clear
    { id := 0, color_texture := Option.none, depth_texture := some 5 }
    { id := 1, color_texture := some 4, depth_texture := Option.none }
    (ClearState.color_and_depth 0 0 0 1 1) [] (Except.ok ()) [] 0
  have h2 := C8_write_restricts_clear
    { id := 0, color_texture := some 4, depth_texture := Option.none }
    { id := 1, color_texture := some 4, depth_texture := Option.none }
    (ClearState.color_and_depth 0 0 0 1 1) [] (Except.ok ()) [] 0
  exact ⟨h.2.2.2.2.1 rfl, h2.2.2.2.2.2 rfl⟩

/-- A GPU vertex buffer. The buffer sources (core::buffer) are outside the
given files; the buffer is modelled as holding the uploaded elements, with
`count` the number of elements, matching the use of
`position_buffer.count()` in mesh.rs (u8 elements are carried as their
integer values). -/
structure VertexBuffer where
  data : List Int
  deriving DecidableEq, Repr

/-- Element count of a vertex buffer. -/
def VertexBuffer.count (b : VertexBuffer) : Nat := b.data.length

/-- A GPU element (index) buffer holding u32 indices. -/
structure ElementBuffer where
  data : List Nat
  deriving DecidableEq, Repr

/-- The buffer-creation services of the graphics context used by Mesh::new;
each creation is fallible. -/
structure GLCtx where
  newVertexBufferF32 : List F32 → Except GLError VertexBuffer
  newVertexBufferU8 : List Nat → Except GLError VertexBuffer
  newElementBufferU32 : List Nat → Except GLError ElementBuffer

/-- CPUMesh: the CPU-side mesh data consumed by Mesh::new (the struct is
defined outside the given files; the fields are the ones mesh.rs reads:
positions plus optional normals, u32 indices, uvs and u8 colors). -/
structure CPUMesh where
  positions : List F32
  normals : Option (List F32)
  indices : Option (List Nat)
  uvs : Option (List F32)
  colors : Option (List Nat)

/-- Mesh (mesh.rs:142): the uploaded buffers; optional attributes are `none`
when absent. -/
structure Mesh where
  position_buffer : VertexBuffer
  normal_buffer : Option VertexBuffer
  index_buffer : Option ElementBuffer
  uv_buffer : Option VertexBuffer
  color_buffer : Option VertexBuffer
  deriving DecidableEq, Repr

/-- Creation of a buffer for an optional attribute: create exactly when the
attribute is present (the `if let Some(ref ...)` blocks of mesh.rs:158-177),
propagating the creation error. -/
def createOpt {α β : Type} (make : α → Except GLError β) :
    Option α → Except GLError (Option β)
  | some a => (make a).map some
  | Option.none => Except.ok Option.none

/-- Mesh::new (mesh.rs:156): upload positions, then normals, indices, uvs and
colors when present, each `?` propagating the first creation error; on
success increment the global MESH_COUNT and return the mesh. -/
def Mesh.new (ctx : GLCtx) (cpu : CPUMesh) (meshCount : Nat) :
    Except GLError (Mesh × Nat) := do
  let position_buffer ← ctx.newVertexBufferF32 cpu.positions
  let normal_buffer ← createOpt ctx.newVertexBufferF32 cpu.normals
  let index_buffer ← createOpt ctx.newElementBufferU32 cpu.indices
  let uv_buffer ← createOpt ctx.newVertexBufferF32 cpu.uvs
  let color_buffer ← createOpt ctx.newVertexBufferU8 cpu.colors
  Except.ok ({ position_buffer := position_buffer, normal_buffer := normal_buffer,
               index_buffer := index_buffer, uv_buffer := uv_buffer,
               color_buffer := color_buffer }, meshCount + 1)

/-- Forgets a creation result's payload, keeping success or the error. -/
def resultToken {β : Type} : Except GLError β → Except GLError Unit
  | Except.error e => Except.error e
  | Except.ok _ => Except.ok ()

/-- The creation attempts an optional attribute contributes (one when
present, none when absent). -/
def optToken {α β : Type} (make : α → Except GLError β) :
    Option α → List (Except GLError Unit)
  | some a => [resultToken (make a)]
  | Option.none => []

/-- The ordered list of buffer-creation attempts Mesh::new makes for a given
mesh: positions first, then normals, indices, uvs, colors when present. -/
def creationAttempts (ctx : GLCtx) (cpu : CPUMesh) : List (Except GLError Unit) :=
  [resultToken (ctx.newVertexBufferF32 cpu.positions)]
  ++ optToken ctx.newVertexBufferF32 cpu.normals
  ++ optToken ctx.newElementBufferU32 cpu.indices
  ++ optToken ctx.newVertexBufferF32 cpu.uvs
  ++ optToken ctx.newVertexBufferU8 cpu.colors

/-- The first error in an ordered list of attempt results. -/
def firstError : List (Except GLError Unit) → Option GLError
  | [] => Option.none
  | Except.error e :: _ => some e
  | Except.ok _ :: rest => firstError rest


/-- Unfolding firstError over a leading plain creation attempt. -/
theorem firstError_resultToken_cons {β : Type} (r : Except GLError β)
    (rest : List (Except GLError Unit)) :
    firstError (resultToken r :: rest) =
      (match r with
       | Except.error e => some e
       | Except.ok _ => firstError rest) := by
  cases r <;> rfl

/-- Unfolding firstError over the attempts of an optional attribute. -/
theorem firstError_optToken_append {α β : Type} (make : α → Except GLError β)
    (o : Option α) (rest : List (Except GLError Unit)) :
    firstError (optToken make o ++ rest) =
      (match createOpt make o with
       | Except.error e => some e
       | Except.ok _ => firstError rest) := by
  cases o with
  | none => rfl
  | some a =>
    cases h : make a <;>
      simp [optToken, createOpt, resultToken, firstError, h, Except.map]

/-- Unfolding firstError over a trailing optional attribute. -/
theorem firstError_optToken {α β : Type} (make : α → Except GLError β)
    (o : Option α) :
    firstError (optToken make o) =
      (match createOpt make o with
       | Except.error e => some e
       | Except.ok _ => Option.none) := by
  cases o with
  | none => rfl
  | some a =>
    cases h : make a <;>
      simp [optToken, createOpt, resultToken, firstError, h, Except.map]

/-- A successful optional creation yields a buffer exactly when the attribute
is present, and that buffer comes from the creation call on the attribute's
data. -/
theorem createOpt_ok {α β : Type} (make : α → Except GLError β) (o : Option α)
    (b : Option β) (h : createOpt make o = Except.ok b) :
    (b.isSome ↔ o.isSome)
    ∧ (∀ a, o = some a → ∃ x, make a = Except.ok x ∧ b = some x) := by
  cases o with
  | none =>
    refine ⟨?_, ?_⟩
    · cases h
      simp
    · intro a ha
      cases ha
  | some a =>
    cases hm : make a with
    | error e =>
      rw [createOpt, hm] at h
      cases h
    | ok x =>
      rw [createOpt, hm] at h
      cases h
      exact ⟨by simp, fun a2 ha2 => by cases ha2; exact ⟨x, hm, rfl⟩⟩

/-- C3: failures propagate unchanged with no recovery. Screen::write returns
exactly the render closure's error and Ok(()) on its success;
RenderTarget::write returns the render closure's error unchanged; Mesh::new
fails with e exactly when the first failing buffer-creation call fails
with e. -/
theorem C3_error_propagation (c : ClearState) (tr : List GLCmd) (e : GLError)
    (rt : RenderTarget) (ctx : GLCtx) (cpu : CPUMesh) (n : Nat) :
    (Screen.write c (tr, Except.error e)).2 = Except.error e
    ∧ (Screen.write c (tr, Except.ok ())).2 = Except.ok ()
    ∧ (RenderTarget.write rt c (tr, Except.error e)).2 = Except.error e
    ∧ (RenderTarget.write rt c (tr, Except.ok ())).2 = Except.ok ()
    ∧ ((Mesh.new ctx cpu n).isOk ↔ firstError (creationAttempts ctx cpu) = Option.none)
    ∧ (Mesh.new ctx cpu n = Except.error e ↔
        firstError (creationAttempts ctx cpu) = some e) := by
  refine ⟨rfl, rfl, rfl, rfl, ?_⟩
  cases h1 : ctx.newVertexBufferF32 cpu.positions with
  | error e1 =>
    simp [Mesh.new, h1, bind, Except.bind, creationAttempts, List.append_assoc,
      firstError_resultToken_cons, firstError_optToken_append, Except.isOk,
      Except.toBool]
  | ok b1 =>
    cases h2 : createOpt ctx.newVertexBufferF32 cpu.normals with
    | error e2 =>
      simp [Mesh.new, h1, h2, bind, Except.bind, creationAttempts, List.append_assoc,
        firstError_resultToken_cons, firstError_optToken_append, Except.isOk,
        Except.toBool]
    | ok b2 =>
      cases h3 : createOpt ctx.newElementBufferU32 cpu.indices with
      | error e3 =>
        simp [Mesh.new, h1, h2, h3, bind, Except.bind, creationAttempts,
          List.append_assoc, firstError_resultToken_cons,
          firstError_optToken_append, Except.isOk, Except.toBool]
      | ok b3 =>
        cases h4 : createOpt ctx.newVertexBufferF32 cpu.uvs with
        | error e4 =>
          simp [Mesh.new, h1, h2, h3, h4, bind, Except.bind, creationAttempts,
            List.append_assoc, firstError_resultToken_cons,
            firstError_optToken_append, Except.isOk, Except.toBool]
        | ok b4 =>
          cases h5 : createOpt ctx.newVertexBufferU8 cpu.colors with
          | error e5 =>
            simp [Mesh.new, h1, h2, h3, h4, h5, bind, Except.bind,
              creationAttempts, List.append_assoc, firstError_resultToken_cons,
              firstError_optToken_append, firstError_optToken, Except.isOk,
              Except.toBool]
          | ok b5 =>
            simp [Mesh.new, h1, h2, h3, h4, h5, bind, Except.bind,
              creationAttempts, List.append_assoc, firstError_resultToken_cons,
              firstError_optToken_append, firstError_optToken, Except.isOk,
              Except.toBool, firstError]

/-- Concrete graphics context whose element-buffer creation fails and whose
other creations succeed. -/
def ctxIndexFail : GLCtx :=
  { newVertexBufferF32 := fun d => Except.ok { data := d },
    newVertexBufferU8 := fun d => Except.ok { data := d.map Int.ofNat },
    newElementBufferU32 := fun _ =>
      Except.error (GLError.failedToCreateBuffer "buffer creation failed") }

/-- Concrete CPU mesh with indices (one triangle). -/
def cpuTri : CPUMesh :=
  { positions := [0, 0, 0, 1, 0, 0, 0, 1, 0], normals := Option.none,
    indices := some [0, 1, 2], uvs := Option.none, colors := Option.none }

/-- Witness for C3 at a concrete context whose element-buffer creation
fails: Mesh::new forwards exactly that error. -/
theorem C3_error_propagation_witness :
    Mesh.new ctxIndexFail cpuTri 0 =
      Except.error (GLError.failedToCreateBuffer "buffer creation failed") :=
  (C3_error_propagation ClearState.none []
    (GLError.failedToCreateBuffer "buffer creation failed")
    { id := 0, color_texture := Option.none, depth_texture := Option.none }
    ctxIndexFail cpuTri 0).2.2.2.2.2.mpr (by decide)

/-- MeshProgram (mesh.rs:11): the attribute requirements a mesh shader
program was compiled with. -/
structure MeshProgram where
  use_normals : Bool
  use_uvs : Bool
  use_colors : Bool
  deriving DecidableEq, Repr

/-- The uv-attribute step of Mesh::render (mesh.rs:321): when the program
needs uvs, fail if the mesh has no uv buffer, else bind it. -/
def uvStep (m : Mesh) (p : MeshProgram) : Except GLError (List GLCmd) :=
  if p.use_uvs then
    match m.uv_buffer with
    | some _ => Except.ok [GLCmd.useAttribute "uv_coordinates"]
    | Option.none => Except.error (GLError.failedToCreateMesh
        "The mesh shader program needs uv coordinates, but the mesh does not have any.")
  else Except.ok []

/-- The normal-attribute step of Mesh::render (mesh.rs:329): when the program
needs normals, fail if the mesh has no normal buffer, else set the normal
matrix and bind the buffer. -/
def normalStep (m : Mesh) (p : MeshProgram) : Except GLError (List GLCmd) :=
  if p.use_normals then
    match m.normal_buffer with
    | some _ => Except.ok [GLCmd.useUniformMat4 "normalMatrix", GLCmd.useAttribute "normal"]
    | Option.none => Except.error (GLError.failedToCreateMesh
        "The mesh shader program needs normals, but the mesh does not have any. Consider calculating the normals on the CPUMesh.")
  else Except.ok []

/-- The color-attribute step of Mesh::render (mesh.rs:338): when the program
needs per-vertex colors, fail if the mesh has no color buffer, else bind
it. -/
def colorStep (m : Mesh) (p : MeshProgram) : Except GLError (List GLCmd) :=
  if p.use_colors then
    match m.color_buffer with
    | some _ => Except.ok [GLCmd.useAttribute "color"]
    | Option.none => Except.error (GLError.failedToCreateMesh
        "The mesh shader program needs per vertex colors, but the mesh does not have any.")
  else Except.ok []

/-- The draw call of Mesh::render (mesh.rs:344): indexed draw when the mesh
has an index buffer, otherwise draw arrays with `count() as u32 / 3`
vertices (the usize-to-u32 cast is a reduction modulo 2^32). -/
def drawOf (m : Mesh) : GLCmd :=
  match m.index_buffer with
  | some ib => GLCmd.drawElementsBuf ib.data
  | Option.none => GLCmd.drawArrays (m.position_buffer.count % 4294967296 / 3)

/-- Mesh::render (mesh.rs:309): set the model matrix and camera block, bind
the position attribute, run the three optional attribute steps (each may
fail), then issue the draw call. -/
def Mesh.render (m : Mesh) (p : MeshProgram) : List GLCmd × Except GLError Unit :=
  let base := [GLCmd.useUniformMat4 "modelMatrix", GLCmd.useUniformBlock "Camera",
               GLCmd.useAttribute "position"]
  match uvStep m p with
  | Except.error e => (base, Except.error e)
  | Except.ok uvc =>
    match normalStep m p with
    | Except.error e => (base ++ uvc, Except.error e)
    | Except.ok nc =>
      match colorStep m p with
      | Except.error e => (base ++ uvc ++ nc, Except.error e)
      | Except.ok cc => (base ++ uvc ++ nc ++ cc ++ [drawOf m], Except.ok ())

/-- C7: Mesh::new uploads a buffer per present attribute, leaving absent ones
unset, and Mesh::render ends in an indexed draw when the mesh has indices and
otherwise in a draw-arrays call of the position element count divided by 3. -/
theorem C7_mesh_upload_and_draw (ctx : GLCtx) (cpu : CPUMesh) (n n2 : Nat)
    (m : Mesh) (p : MeshProgram) :
    (Mesh.new ctx cpu n = Except.ok (m, n2) →
      ctx.newVertexBufferF32 cpu.positions = Except.ok m.position_buffer
      ∧ (m.normal_buffer.isSome ↔ cpu.normals.isSome)
      ∧ (m.index_buffer.isSome ↔ cpu.indices.isSome)
      ∧ (m.uv_buffer.isSome ↔ cpu.uvs.isSome)
      ∧ (m.color_buffer.isSome ↔ cpu.colors.isSome)
      ∧ (∀ ns, cpu.normals = some ns →
          ∃ b, ctx.newVertexBufferF32 ns = Except.ok b ∧ m.normal_buffer = some b)
      ∧ (∀ ixs, cpu.indices = some ixs →
          ∃ b, ctx.newElementBufferU32 ixs = Except.ok b ∧ m.index_buffer = some b)
      ∧ (∀ us, cpu.uvs = some us →
          ∃ b, ctx.newVertexBufferF32 us = Except.ok b ∧ m.uv_buffer = some b)
      ∧ (∀ cs, cpu.colors = some cs →
          ∃ b, ctx.newVertexBufferU8 cs = Except.ok b ∧ m.color_buffer = some b))
    ∧ ((Mesh.render m p).2 = Except.ok () →
        ∃ l, (Mesh.render m p).1 = l ++ [drawOf m])
    ∧ (∀ ib, m.index_buffer = some ib → drawOf m = GLCmd.drawElementsBuf ib.data)
    ∧ (m.index_buffer = Option.none →
        drawOf m = GLCmd.drawArrays (m.position_buffer.count % 4294967296 / 3))
    ∧ (m.position_buffer.count < 4294967296 →
        m.position_buffer.count % 4294967296 = m.position_buffer.count) := by
  refine ⟨?_, ?_, ?_, ?_, fun h => Nat.mod_eq_of_lt h⟩
  · intro hok
    cases h1 : ctx.newVertexBufferF32 cpu.positions with
    | error e1 =>
      rw [Mesh.new] at hok
      simp [h1, bind, Except.bind] at hok
    | ok b1 =>
      cases h2 : createOpt ctx.newVertexBufferF32 cpu.normals with
      | error e2 =>
        rw [Mesh.new] at hok
        simp [h1, h2, bind, Except.bind] at hok
      | ok b2 =>
        cases h3 : createOpt ctx.newElementBufferU32 cpu.indices with
        | error e3 =>
          rw [Mesh.new] at hok
          simp [h1, h2, h3, bind, Except.bind] at hok
        | ok b3 =>
          cases h4 : createOpt ctx.newVertexBufferF32 cpu.uvs with
          | error e4 =>
            rw [Mesh.new] at hok
            simp [h1, h2, h3, h4, bind, Except.bind] at hok
          | ok b4 =>
            cases h5 : createOpt ctx.newVertexBufferU8 cpu.colors with
            | error e5 =>
              rw [Mesh.new] at hok
              simp [h1, h2, h3, h4, h5, bind, Except.bind] at hok
            | ok b5 =>
              rw [Mesh.new] at hok
              simp [h1, h2, h3, h4, h5, bind, Except.bind] at hok
              obtain ⟨hm, _⟩ := hok
              subst hm
              refine ⟨by simp [h1], ?_, ?_, ?_, ?_,
                fun a ha => (createOpt_ok _ _ _ h2).2 a ha,
                fun a ha => (createOpt_ok _ _ _ h3).2 a ha,
                fun a ha => (createOpt_ok _ _ _ h4).2 a ha,
                fun a ha => (createOpt_ok _ _ _ h5).2 a ha⟩
              · exact (createOpt_ok _ _ _ h2).1
              · exact (createOpt_ok _ _ _ h3).1
              · exact (createOpt_ok _ _ _ h4).1
              · exact (createOpt_ok _ _ _ h5).1
  · intro hok
    cases hu : uvStep m p with
    | error e1 => simp [Mesh.render, hu] at hok
    | ok c1 =>
      cases hn : normalStep m p with
      | error e2 => simp [Mesh.render, hu, hn] at hok
      | ok c2 =>
        cases hc : colorStep m p with
        | error e3 => simp [Mesh.render, hu, hn, hc] at hok
        | ok c3 =>
          refine ⟨[GLCmd.useUniformMat4 "modelMatrix", GLCmd.useUniformBlock "Camera",
                   GLCmd.useAttribute "position"] ++ c1 ++ c2 ++ c3, ?_⟩
          simp [Mesh.render, hu, hn, hc]
  · intro ib h
    simp [drawOf, h]
  · intro h
    simp [drawOf, h]

/-- Concrete graphics context whose creations all succeed. -/
def ctxAllOk : GLCtx :=
  { newVertexBufferF32 := fun d => Except.ok { data := d },
    newVertexBufferU8 := fun d => Except.ok { data := d.map Int.ofNat },
    newElementBufferU32 := fun d => Except.ok { data := d } }

/-- Concrete CPU mesh with uvs but no normals, indices or colors. -/
def cpuUv : CPUMesh :=
  { positions := [0, 0, 0, 1, 0, 0, 0, 1, 0], normals := Option.none,
    indices := Option.none, uvs := some [0, 0, 1, 0, 0, 1],
    colors := Option.none }

/-- The mesh Mesh::new builds from `cpuUv` under `ctxAllOk`. -/
def meshUv : Mesh :=
  { position_buffer := { data := [0, 0, 0, 1, 0, 0, 0, 1, 0] },
    normal_buffer := Option.none, index_buffer := Option.none,
    uv_buffer := some { data := [0, 0, 1, 0, 0, 1] },
    color_buffer := Option.none }

/-- A program using only uvs. -/
def progUv : MeshProgram := { use_normals := false, use_uvs := true, use_colors := false }

/-- Witness for C7 at the concrete mesh `meshUv`: the uploaded buffers match
the present attributes and the non-indexed render ends in a draw-arrays call
of 9 / 3 = 3 vertices. -/
theorem C7_mesh_upload_and_draw_witness :
    (meshUv.normal_buffer.isSome ↔ cpuUv.normals.isSome)
    ∧ (meshUv.uv_buffer.isSome ↔ cpuUv.uvs.isSome)
    ∧ (∃ l, (Mesh.render meshUv progUv).1 = l ++ [drawOf meshUv])
    ∧ drawOf meshUv = GLCmd.drawArrays 3 := by
  have h := C7_mesh_upload_and_draw ctxAllOk cpuUv 0 1 meshUv progUv
  have hok : Mesh.new ctxAllOk cpuUv 0 = Except.ok (meshUv, 1) := by rfl
  have h1 := h.1 hok
  refine ⟨h1.2.1, h1.2.2.2.1, h.2.1 (by rfl), ?_⟩
  have h4 := h.2.2.2.1 rfl
  rw [h4]
  rfl

/-- get_copy_effect (render_target.rs:786): the copy effect is held in a
`static mut` cache; on first use it is compiled (ImageEffect::new, modelled
as succeeding with the given fresh program id since the effect sources are
outside the given files), afterwards the cached effect is returned with no
compilation. Returns (new cache state, effect id, emitted trace). -/
def get_copy_effect (cache : Option Nat) (fresh : Nat) :
    Option Nat × Nat × List GLCmd :=
  match cache with
  | some e => (some e, e, [])
  | Option.none => (some fresh, fresh, [GLCmd.compileEffect fresh])

/-- get_copy_array_effect (render_target.rs:808): the array copy effect,
held in its own `static mut` cache with the same lazy-compilation shape. -/
def get_copy_array_effect (cache : Option Nat) (fresh : Nat) :
    Option Nat × Nat × List GLCmd :=
  match cache with
  | some e => (some e, e, [])
  | Option.none => (some fresh, fresh, [GLCmd.compileEffect fresh])

/-- RenderTarget::copy_to_screen (render_target.rs:238): error unless both a
color and a depth texture are attached; otherwise render both textures to the
screen through the copy effect. -/
def RenderTarget.copy_to_screen (rt : RenderTarget) (cache : Option Nat)
    (fresh : Nat) : Option Nat × List GLCmd × Except GLError Unit :=
  match rt.color_texture, rt.depth_texture with
  | some ct, some dt =>
    let geteff := get_copy_effect cache fresh
    let closure := geteff.2.2
      ++ [GLCmd.useTexture ct "colorMap", GLCmd.useTexture dt "depthMap",
          GLCmd.applyEffect geteff.2.1 WriteMask.default]
    (geteff.1, (Screen.write ClearState.none (closure, Except.ok ())).1, Except.ok ())
  | _, _ => (cache, [], Except.error (GLError.failedToCopyFromRenderTarget
      "Cannot copy depth and color when the render target does not have a color and depth texture."))

/-- RenderTarget::copy_color_to_screen (render_target.rs:265): error unless a
color texture is attached; otherwise render it to the screen with a
color-only write mask. -/
def RenderTarget.copy_color_to_screen (rt : RenderTarget) (cache : Option Nat)
    (fresh : Nat) : Option Nat × List GLCmd × Except GLError Unit :=
  match rt.color_texture with
  | some ct =>
    let geteff := get_copy_effect cache fresh
    let closure := geteff.2.2
      ++ [GLCmd.useTexture ct "colorMap",
          GLCmd.applyEffect geteff.2.1 WriteMask.COLOR]
    (geteff.1, (Screen.write ClearState.none (closure, Except.ok ())).1, Except.ok ())
  | Option.none => (cache, [], Except.error (GLError.failedToCopyFromRenderTarget
      "Cannot copy color when the render target does not have a color texture."))

/-- RenderTarget::copy_depth_to_screen (render_target.rs:295): error unless a
depth texture is attached; otherwise render it to the screen with a
depth-only write mask. -/
def RenderTarget.copy_depth_to_screen (rt : RenderTarget) (cache : Option Nat)
    (fresh : Nat) : Option Nat × List GLCmd × Except GLError Unit :=
  match rt.depth_texture with
  | some dt =>
    let geteff := get_copy_effect cache fresh
    let closure := geteff.2.2
      ++ [GLCmd.useTexture dt "depthMap",
          GLCmd.applyEffect geteff.2.1 WriteMask.DEPTH]
    (geteff.1, (Screen.write ClearState.none (closure, Except.ok ())).1, Except.ok ())
  | Option.none => (cache, [], Except.error (GLError.failedToCopyFromRenderTarget
      "Cannot copy depth when the render target does not have a depth texture."))

/-- RenderTarget::copy (render_target.rs:326): error unless source and
destination both have color and depth textures; otherwise render the source
textures into the destination render target. -/
def RenderTarget.copy (rt other : RenderTarget) (cache : Option Nat)
    (fresh : Nat) : Option Nat × List GLCmd × Except GLError Unit :=
  match rt.color_texture, rt.depth_texture, other.color_texture, other.depth_texture with
  | some ct, some dt, some _, some _ =>
    let geteff := get_copy_effect cache fresh
    let closure := geteff.2.2
      ++ [GLCmd.useTexture ct "colorMap", GLCmd.useTexture dt "depthMap",
          GLCmd.applyEffect geteff.2.1 WriteMask.default]
    (geteff.1, (RenderTarget.write other ClearState.none (closure, Except.ok ())).1,
     Except.ok ())
  | _, _, _, _ => (cache, [], Except.error (GLError.failedToCopyFromRenderTarget
      "Cannot copy depth and color when the render target does not have a color and depth texture."))

/-- RenderTarget::copy_color (render_target.rs:358): error unless source and
destination both have a color texture; otherwise render the source color into
the destination with a color-only write mask. -/
def RenderTarget.copy_color (rt other : RenderTarget) (cache : Option Nat)
    (fresh : Nat) : Option Nat × List GLCmd × Except GLError Unit :=
  match rt.color_texture, other.color_texture with
  | some ct, some _ =>
    let geteff := get_copy_effect cache fresh
    let closure := geteff.2.2
      ++ [GLCmd.useTexture ct "colorMap",
          GLCmd.applyEffect geteff.2.1 WriteMask.COLOR]
    (geteff.1, (RenderTarget.write other ClearState.none (closure, Except.ok ())).1,
     Except.ok ())
  | _, _ => (cache, [], Except.error (GLError.failedToCopyFromRenderTarget
      "Cannot copy color when the render target does not have a color texture."))

/-- RenderTarget::copy_depth (render_target.rs:388): error unless source and
destination both have a depth texture; otherwise render the source depth into
the destination with a depth-only write mask. -/
def RenderTarget.copy_depth (rt other : RenderTarget) (cache : Option Nat)
    (fresh : Nat) : Option Nat × List GLCmd × Except GLError Unit :=
  match rt.depth_texture, other.depth_texture with
  | some dt, some _ =>
    let geteff := get_copy_effect cache fresh
    let closure := geteff.2.2
      ++ [GLCmd.useTexture dt "depthMap",
          GLCmd.applyEffect geteff.2.1 WriteMask.DEPTH]
    (geteff.1, (RenderTarget.write other ClearState.none (closure, Except.ok ())).1,
     Except.ok ())
  | _, _ => (cache, [], Except.error (GLError.failedToCopyFromRenderTarget
      "Cannot copy depth when the render target does not have a depth texture."))

/-- C9: every copy operation checks its texture preconditions first: it
returns the FailedToCopyFromRenderTarget error exactly when the required
textures are missing, and in that case it returns with an empty trace, before
rendering anything. -/
theorem C9_copy_preconditions (rt other : RenderTarget) (cache : Option Nat)
    (fresh : Nat) :
    ((rt.copy_to_screen cache fresh).2.2 =
        Except.error (GLError.failedToCopyFromRenderTarget
          "Cannot copy depth and color when the render target does not have a color and depth texture.")
      ↔ (rt.color_texture = Option.none ∨ rt.depth_texture = Option.none))
    ∧ ((rt.color_texture = Option.none ∨ rt.depth_texture = Option.none) →
        (rt.copy_to_screen cache fresh).2.1 = [])
    ∧ ((rt.copy other cache fresh).2.2 =
        Except.error (GLError.failedToCopyFromRenderTarget
          "Cannot copy depth and color when the render target does not have a color and depth texture.")
      ↔ (rt.color_texture = Option.none ∨ rt.depth_texture = Option.none
          ∨ other.color_texture = Option.none ∨ other.depth_texture = Option.none))
    ∧ ((rt.color_texture = Option.none ∨ rt.depth_texture = Option.none
          ∨ other.color_texture = Option.none ∨ other.depth_texture = Option.none) →
        (rt.copy other cache fresh).2.1 = [])
    ∧ ((rt.copy_color other cache fresh).2.2 =
        Except.error (GLError.failedToCopyFromRenderTarget
          "Cannot copy color when the render target does not have a color texture.")
      ↔ (rt.color_texture = Option.none ∨ other.color_texture = Option.none))
    ∧ ((rt.color_texture = Option.none ∨ other.color_texture = Option.none) →
        (rt.copy_color other cache fresh).2.1 = [])
    ∧ ((rt.copy_color_to_screen cache fresh).2.2 =
        Except.error (GLError.failedToCopyFromRenderTarget
          "Cannot copy color when the render target does not have a color texture.")
      ↔ rt.color_texture = Option.none)
    ∧ (rt.color_texture = Option.none → (rt.copy_color_to_screen cache fresh).2.1 = [])
    ∧ ((rt.copy_depth other cache fresh).2.2 =
        Except.error (GLError.failedToCopyFromRenderTarget
          "Cannot copy depth when the render target does not have a depth texture.")
      ↔ (rt.depth_texture = Option.none ∨ other.depth_texture = Option.none))
    ∧ ((rt.depth_texture = Option.none ∨ other.depth_texture = Option.none) →
        (rt.copy_depth other cache fresh).2.1 = [])
    ∧ ((rt.copy_depth_to_screen cache fresh).2.2 =
        Except.error (GLError.failedToCopyFromRenderTarget
          "Cannot copy depth when the render target does not have a depth texture.")
      ↔ rt.depth_texture = Option.none)
    ∧ (rt.depth_texture = Option.none → (rt.copy_depth_to_screen cache fresh).2.1 = []) := by
  rcases rt with ⟨i, ct, dt⟩
  rcases other with ⟨i2, ct2, dt2⟩
  cases ct <;> cases dt <;> cases ct2 <;> cases dt2 <;>
    simp [RenderTarget.copy_to_screen, RenderTarget.copy,
      RenderTarget.copy_color, RenderTarget.copy_color_to_screen,
      RenderTarget.copy_depth, RenderTarget.copy_depth_to_screen]

/-- Witness for C9 at a depth-only source target: copying color (or color and
depth) to the screen fails with the copy error and renders nothing. -/
theorem C9_copy_preconditions_witness :
    (RenderTarget.copy_to_screen
        { id := 0, color_texture := Option.none, depth_texture := some 1 }
        Option.none 0).2.2 =
      Except.error (GLError.failedToCopyFromRenderTarget
        "Cannot copy depth and color when the render target does not have a color and depth texture.")
    ∧ (RenderTarget.copy_to_screen
        { id := 0, color_texture := Option.none, depth_texture := some 1 }
        Option.none 0).2.1 = [] := by
  have h := C9_copy_preconditions
    { id := 0, color_texture := Option.none, depth_texture := some 1 }
    { id := 9, color_texture := some 2, depth_texture := some 3 } Option.none 0
  exact ⟨h.1.mpr (Or.inl rfl), h.2.1 (Or.inl rfl)⟩

/-- new_framebuffer (render_target.rs:734): ask the context for a
framebuffer; `None` from the context becomes the FailedToCreateFramebuffer
error, otherwise the creation is recorded and the id returned. -/
def new_framebuffer (res : Option Nat) : List GLCmd × Except GLError Nat :=
  match res with
  | some id => ([GLCmd.createFramebuffer id], Except.ok id)
  | Option.none => ([], Except.error (GLError.failedToCreateFramebuffer
      "Failed to create framebuffer"))

/-- RenderTarget::new (render_target.rs:160): allocate one framebuffer and
attach both textures. -/
def RenderTarget.new (res : Option Nat) (colorTex depthTex : Nat) :
    List GLCmd × Except GLError RenderTarget :=
  let nf := new_framebuffer res
  (nf.1, nf.2.map fun id =>
    { id := id, color_texture := some colorTex, depth_texture := some depthTex })

/-- RenderTarget::new_color (render_target.rs:177): allocate one framebuffer
and attach only a color texture. -/
def RenderTarget.new_color (res : Option Nat) (colorTex : Nat) :
    List GLCmd × Except GLError RenderTarget :=
  let nf := new_framebuffer res
  (nf.1, nf.2.map fun id =>
    { id := id, color_texture := some colorTex, depth_texture := Option.none })

/-- RenderTarget::new_depth (render_target.rs:192): allocate one framebuffer
and attach only a depth texture. -/
def RenderTarget.new_depth (res : Option Nat) (depthTex : Nat) :
    List GLCmd × Except GLError RenderTarget :=
  let nf := new_framebuffer res
  (nf.1, nf.2.map fun id =>
    { id := id, color_texture := Option.none, depth_texture := some depthTex })

/-- Drop for RenderTarget (render_target.rs:428): delete exactly the
framebuffer allocated at construction. -/
def RenderTarget.dropTrace (rt : RenderTarget) : List GLCmd :=
  [GLCmd.deleteFramebuffer rt.id]

/-- RenderTargetArray::new (render_target.rs:450): allocate one framebuffer
and attach both array textures. -/
def RenderTargetArray.new (res : Option Nat) (colorTex depthTex : Nat) :
    List GLCmd × Except GLError RenderTargetArray :=
  let nf := new_framebuffer res
  (nf.1, nf.2.map fun id =>
    { id := id, color_texture := some colorTex, depth_texture := some depthTex })

/-- RenderTargetArray::new_color (render_target.rs:463). -/
def RenderTargetArray.new_color (res : Option Nat) (colorTex : Nat) :
    List GLCmd × Except GLError RenderTargetArray :=
  let nf := new_framebuffer res
  (nf.1, nf.2.map fun id =>
    { id := id, color_texture := some colorTex, depth_texture := Option.none })

/-- RenderTargetArray::new_depth (render_target.rs:475). -/
def RenderTargetArray.new_depth (res : Option Nat) (depthTex : Nat) :
    List GLCmd × Except GLError RenderTargetArray :=
  let nf := new_framebuffer res
  (nf.1, nf.2.map fun id =>
    { id := id, color_texture := Option.none, depth_texture := some depthTex })

/-- Drop for RenderTargetArray (render_target.rs:728): delete exactly the
framebuffer allocated at construction. -/
def RenderTargetArray.dropTrace (rt : RenderTargetArray) : List GLCmd :=
  [GLCmd.deleteFramebuffer rt.id]

/-- RenderTargetArray::copy_to_screen (render_target.rs:519). -/
def RenderTargetArray.copy_to_screen (rt : RenderTargetArray)
    (colorLayer depthLayer : Nat) (cache : Option Nat) (fresh : Nat) :
    Option Nat × List GLCmd × Except GLError Unit :=
  match rt.color_texture, rt.depth_texture with
  | some ct, some dt =>
    let geteff := get_copy_array_effect cache fresh
    let closure := geteff.2.2
      ++ [GLCmd.useTexture ct "colorMap", GLCmd.useTexture dt "depthMap",
          GLCmd.useUniformInt "colorLayer" (Int.ofNat colorLayer),
          GLCmd.useUniformInt "depthLayer" (Int.ofNat depthLayer),
          GLCmd.applyEffect geteff.2.1 WriteMask.default]
    (geteff.1, (Screen.write ClearState.none (closure, Except.ok ())).1, Except.ok ())
  | _, _ => (cache, [], Except.error (GLError.failedToCopyFromRenderTarget
      "Cannot copy depth and color when the render target does not have a color and depth texture."))

/-- RenderTargetArray::copy_color_to_screen (render_target.rs:547); here the
effect is obtained before entering Screen::write. -/
def RenderTargetArray.copy_color_to_screen (rt : RenderTargetArray)
    (colorLayer : Nat) (cache : Option Nat) (fresh : Nat) :
    Option Nat × List GLCmd × Except GLError Unit :=
  match rt.color_texture with
  | some ct =>
    let geteff := get_copy_array_effect cache fresh
    let closure := [GLCmd.useTexture ct "colorMap",
                    GLCmd.useUniformInt "colorLayer" (Int.ofNat colorLayer),
                    GLCmd.applyEffect geteff.2.1 WriteMask.COLOR]
    (geteff.1, geteff.2.2 ++ (Screen.write ClearState.none (closure, Except.ok ())).1,
     Except.ok ())
  | Option.none => (cache, [], Except.error (GLError.failedToCopyFromRenderTarget
      "Cannot copy color when the render target does not have a color texture."))

/-- RenderTargetArray::copy_depth_to_screen (render_target.rs:576). -/
def RenderTargetArray.copy_depth_to_screen (rt : RenderTargetArray)
    (depthLayer : Nat) (cache : Option Nat) (fresh : Nat) :
    Option Nat × List GLCmd × Except GLError Unit :=
  match rt.depth_texture with
  | some dt =>
    let geteff := get_copy_array_effect cache fresh
    let closure := geteff.2.2
      ++ [GLCmd.useTexture dt "depthMap",
          GLCmd.useUniformInt "depthLayer" (Int.ofNat depthLayer),
          GLCmd.applyEffect geteff.2.1 WriteMask.DEPTH]
    (geteff.1, (Screen.write ClearState.none (closure, Except.ok ())).1, Except.ok ())
  | Option.none => (cache, [], Except.error (GLError.failedToCopyFromRenderTarget
      "Cannot copy depth when the render target does not have a depth texture."))

/-- RenderTargetArray::copy (render_target.rs:605): into a RenderTarget. -/
def RenderTargetArray.copy (rt : RenderTargetArray) (colorLayer depthLayer : Nat)
    (other : RenderTarget) (cache : Option Nat) (fresh : Nat) :
    Option Nat × List GLCmd × Except GLError Unit :=
  match rt.color_texture, rt.depth_texture, other.color_texture, other.depth_texture with
  | some ct, some dt, some _, some _ =>
    let geteff := get_copy_array_effect cache fresh
    let closure := geteff.2.2
      ++ [GLCmd.useTexture ct "colorMap", GLCmd.useTexture dt "depthMap",
          GLCmd.useUniformInt "colorLayer" (Int.ofNat colorLayer),
          GLCmd.useUniformInt "depthLayer" (Int.ofNat depthLayer),
          GLCmd.applyEffect geteff.2.1 WriteMask.default]
    (geteff.1, (RenderTarget.write other ClearState.none (closure, Except.ok ())).1,
     Except.ok ())
  | _, _, _, _ => (cache, [], Except.error (GLError.failedToCopyFromRenderTarget
      "Cannot copy depth and color when the render target does not have a color and depth texture."))

/-- RenderTargetArray::copy_color (render_target.rs:638). -/
def RenderTargetArray.copy_color (rt : RenderTargetArray) (colorLayer : Nat)
    (other : RenderTarget) (cache : Option Nat) (fresh : Nat) :
    Option Nat × List GLCmd × Except GLError Unit :=
  match rt.color_texture, other.color_texture with
  | some ct, some _ =>
    let geteff := get_copy_array_effect cache fresh
    let closure := geteff.2.2
      ++ [GLCmd.useTexture ct "colorMap",
          GLCmd.useUniformInt "colorLayer" (Int.ofNat colorLayer),
          GLCmd.applyEffect geteff.2.1 WriteMask.COLOR]
    (geteff.1, (RenderTarget.write other ClearState.none (closure, Except.ok ())).1,
     Except.ok ())
  | _, _ => (cache, [], Except.error (GLError.failedToCopyFromRenderTarget
      "Cannot copy color when the render target does not have a color texture."))

/-- RenderTargetArray::copy_depth (render_target.rs:668). -/
def RenderTargetArray.copy_depth (rt : RenderTargetArray) (depthLayer : Nat)
    (other : RenderTarget) (cache : Option Nat) (fresh : Nat) :
    Option Nat × List GLCmd × Except GLError Unit :=
  match rt.depth_texture, other.depth_texture with
  | some dt, some _ =>
    let geteff := get_copy_array_effect cache fresh
    let closure := geteff.2.2
      ++ [GLCmd.useTexture dt "depthMap",
          GLCmd.useUniformInt "depthLayer" (Int.ofNat depthLayer),
          GLCmd.applyEffect geteff.2.1 WriteMask.DEPTH]
    (geteff.1, (RenderTarget.write other ClearState.none (closure, Except.ok ())).1,
     Except.ok ())
  | _, _ => (cache, [], Except.error (GLError.failedToCopyFromRenderTarget
      "Cannot copy depth when the render target does not have a depth texture."))

/-- The public operations available on a RenderTarget between construction
and drop; a write carries its user render closure (trace and result), a copy
carries the state of the copy-effect static. -/
inductive RTOp where
  | writeOp (c : ClearState) (render : List GLCmd × Except GLError Unit)
  | copyToScreenOp (cache : Option Nat) (fresh : Nat)
  | copyColorToScreenOp (cache : Option Nat) (fresh : Nat)
  | copyDepthToScreenOp (cache : Option Nat) (fresh : Nat)
  | copyOp (other : RenderTarget) (cache : Option Nat) (fresh : Nat)
  | copyColorOp (other : RenderTarget) (cache : Option Nat) (fresh : Nat)
  | copyDepthOp (other : RenderTarget) (cache : Option Nat) (fresh : Nat)

/-- The trace an operation on a given RenderTarget emits. -/
def RTOp.trace (rt : RenderTarget) : RTOp → List GLCmd
  | RTOp.writeOp c render => (rt.write c render).1
  | RTOp.copyToScreenOp cache fresh => (rt.copy_to_screen cache fresh).2.1
  | RTOp.copyColorToScreenOp cache fresh => (rt.copy_color_to_screen cache fresh).2.1
  | RTOp.copyDepthToScreenOp cache fresh => (rt.copy_depth_to_screen cache fresh).2.1
  | RTOp.copyOp other cache fresh => (rt.copy other cache fresh).2.1
  | RTOp.copyColorOp other cache fresh => (rt.copy_color other cache fresh).2.1
  | RTOp.copyDepthOp other cache fresh => (rt.copy_depth other cache fresh).2.1

/-- The user-supplied closure trace inside an operation ([] for the copies,
whose closures are internal). -/
def RTOp.closureTrace : RTOp → List GLCmd
  | RTOp.writeOp _ render => render.1
  | _ => []

/-- The operations available on a RenderTargetArray. -/
inductive RTAOp where
  | writeOp (c : ClearState) (colorLayers : List Nat) (depthLayer : Nat)
      (render : List GLCmd × Except GLError Unit)
  | copyToScreenOp (colorLayer depthLayer : Nat) (cache : Option Nat) (fresh : Nat)
  | copyColorToScreenOp (colorLayer : Nat) (cache : Option Nat) (fresh : Nat)
  | copyDepthToScreenOp (depthLayer : Nat) (cache : Option Nat) (fresh : Nat)
  | copyOp (colorLayer depthLayer : Nat) (other : RenderTarget)
      (cache : Option Nat) (fresh : Nat)
  | copyColorOp (colorLayer : Nat) (other : RenderTarget)
      (cache : Option Nat) (fresh : Nat)
  | copyDepthOp (depthLayer : Nat) (other : RenderTarget)
      (cache : Option Nat) (fresh : Nat)

/-- The trace an operation on a given RenderTargetArray emits. -/
def RTAOp.trace (rt : RenderTargetArray) : RTAOp → List GLCmd
  | RTAOp.writeOp c ls dl render => (rt.write c ls dl render).1
  | RTAOp.copyToScreenOp cl dl cache fresh => (rt.copy_to_screen cl dl cache fresh).2.1
  | RTAOp.copyColorToScreenOp cl cache fresh =>
      (rt.copy_color_to_screen cl cache fresh).2.1
  | RTAOp.copyDepthToScreenOp dl cache fresh =>
      (rt.copy_depth_to_screen dl cache fresh).2.1
  | RTAOp.copyOp cl dl other cache fresh => (rt.copy cl dl other cache fresh).2.1
  | RTAOp.copyColorOp cl other cache fresh => (rt.copy_color cl other cache fresh).2.1
  | RTAOp.copyDepthOp dl other cache fresh => (rt.copy_depth dl other cache fresh).2.1

/-- The user-supplied closure trace inside an array operation. -/
def RTAOp.closureTrace : RTAOp → List GLCmd
  | RTAOp.writeOp _ _ _ render => render.1
  | _ => []

/-- The framebuffer ids created in a trace. -/
def fbCreates : List GLCmd → List Nat
  | [] => []
  | GLCmd.createFramebuffer n :: rest => n :: fbCreates rest
  | _ :: rest => fbCreates rest

/-- The framebuffer ids deleted in a trace. -/
def fbDeletes : List GLCmd → List Nat
  | [] => []
  | GLCmd.deleteFramebuffer n :: rest => n :: fbDeletes rest
  | _ :: rest => fbDeletes rest

theorem fbCreates_append (a b : List GLCmd) :
    fbCreates (a ++ b) = fbCreates a ++ fbCreates b := by
  induction a with
  | nil => rfl
  | cons hd tl ih => cases hd <;> simp [fbCreates, ih]

theorem fbDeletes_append (a b : List GLCmd) :
    fbDeletes (a ++ b) = fbDeletes a ++ fbDeletes b := by
  induction a with
  | nil => rfl
  | cons hd tl ih => cases hd <;> simp [fbDeletes, ih]

theorem fbCreates_clear (c : ClearState) : fbCreates (clear c) = [] := by
  rcases c with ⟨cr, cg, cb, ca, cd⟩
  cases cr <;> cases cg <;> cases cb <;> cases ca <;> cases cd <;> rfl

theorem fbDeletes_clear (c : ClearState) : fbDeletes (clear c) = [] := by
  rcases c with ⟨cr, cg, cb, ca, cd⟩
  cases cr <;> cases cg <;> cases cb <;> cases ca <;> cases cd <;> rfl

theorem fbCreates_rt_bind (rt : RenderTarget) : fbCreates rt.bind = [] := by
  rcases rt with ⟨i, ct, dt⟩
  cases ct <;> cases dt <;> rfl

theorem fbDeletes_rt_bind (rt : RenderTarget) : fbDeletes rt.bind = [] := by
  rcases rt with ⟨i, ct, dt⟩
  cases ct <;> cases dt <;> rfl

theorem fbCreates_map_bindLayer (t : Nat) (l : List (Nat × Nat)) :
    fbCreates (l.map fun p => GLCmd.bindColorTargetLayer t p.2 p.1) = [] := by
  induction l with
  | nil => rfl
  | cons p rest ih => simp [fbCreates, ih]

theorem fbDeletes_map_bindLayer (t : Nat) (l : List (Nat × Nat)) :
    fbDeletes (l.map fun p => GLCmd.bindColorTargetLayer t p.2 p.1) = [] := by
  induction l with
  | nil => rfl
  | cons p rest ih => simp [fbDeletes, ih]

theorem fbCreates_rta_bind (rt : RenderTargetArray) (ls : List Nat) (dl : Nat) :
    fbCreates (rt.bind (some ls) (some dl)) = [] := by
  rcases rt with ⟨i, ct, dt⟩
  cases ct <;> cases dt <;>
    simp [RenderTargetArray.bind, fbCreates_append, fbCreates,
      fbCreates_map_bindLayer]

theorem fbDeletes_rta_bind (rt : RenderTargetArray) (ls : List Nat) (dl : Nat) :
    fbDeletes (rt.bind (some ls) (some dl)) = [] := by
  rcases rt with ⟨i, ct, dt⟩
  cases ct <;> cases dt <;>
    simp [RenderTargetArray.bind, fbDeletes_append, fbDeletes,
      fbDeletes_map_bindLayer]

/-- Commands that create or delete a framebuffer. -/
def isFbCmd : GLCmd → Bool
  | GLCmd.createFramebuffer _ => true
  | GLCmd.deleteFramebuffer _ => true
  | _ => false

theorem fbCreates_nil : fbCreates [] = [] := rfl

theorem fbDeletes_nil : fbDeletes [] = [] := rfl

theorem fbCreates_cons_of_not (x : GLCmd) (rest : List GLCmd)
    (h : isFbCmd x = false) : fbCreates (x :: rest) = fbCreates rest := by
  cases x <;> simp_all [isFbCmd, fbCreates]

theorem fbDeletes_cons_of_not (x : GLCmd) (rest : List GLCmd)
    (h : isFbCmd x = false) : fbDeletes (x :: rest) = fbDeletes rest := by
  cases x <;> simp_all [isFbCmd, fbDeletes]

theorem fbCreates_rt_write (rt : RenderTarget) (c : ClearState)
    (render : List GLCmd × Except GLError Unit) :
    fbCreates (rt.write c render).1 = fbCreates render.1 := by
  rcases render with ⟨tr, res⟩
  cases res <;> cases hm : rt.color_texture <;>
    simp [RenderTarget.write, fbCreates_append, fbCreates_rt_bind,
      fbCreates_clear, hm, fbCreates_nil, fbCreates_cons_of_not, isFbCmd]

theorem fbDeletes_rt_write (rt : RenderTarget) (c : ClearState)
    (render : List GLCmd × Except GLError Unit) :
    fbDeletes (rt.write c render).1 = fbDeletes render.1 := by
  rcases render with ⟨tr, res⟩
  cases res <;> cases hm : rt.color_texture <;>
    simp [RenderTarget.write, fbDeletes_append, fbDeletes_rt_bind,
      fbDeletes_clear, hm, fbDeletes_nil, fbDeletes_cons_of_not, isFbCmd]

theorem fbCreates_rta_write (rt : RenderTargetArray) (c : ClearState)
    (ls : List Nat) (dl : Nat) (render : List GLCmd × Except GLError Unit) :
    fbCreates (rt.write c ls dl render).1 = fbCreates render.1 := by
  rcases render with ⟨tr, res⟩
  have hb := fbCreates_rta_bind rt ls dl
  cases res <;> cases hm : rt.color_texture <;>
    simp [RenderTargetArray.write, fbCreates_append, hb,
      fbCreates_clear, hm, fbCreates_nil, fbCreates_cons_of_not, isFbCmd]

theorem fbDeletes_rta_write (rt : RenderTargetArray) (c : ClearState)
    (ls : List Nat) (dl : Nat) (render : List GLCmd × Except GLError Unit) :
    fbDeletes (rt.write c ls dl render).1 = fbDeletes render.1 := by
  rcases render with ⟨tr, res⟩
  have hb := fbDeletes_rta_bind rt ls dl
  cases res <;> cases hm : rt.color_texture <;>
    simp [RenderTargetArray.write, fbDeletes_append, hb,
      fbDeletes_clear, hm, fbDeletes_nil, fbDeletes_cons_of_not, isFbCmd]

theorem fbCreates_screen_write (c : ClearState)
    (render : List GLCmd × Except GLError Unit) :
    fbCreates (Screen.write c render).1 = fbCreates render.1 := by
  simp [Screen.write, fbCreates_append, fbCreates_clear, fbCreates_nil,
    fbCreates_cons_of_not, isFbCmd]

theorem fbDeletes_screen_write (c : ClearState)
    (render : List GLCmd × Except GLError Unit) :
    fbDeletes (Screen.write c render).1 = fbDeletes render.1 := by
  simp [Screen.write, fbDeletes_append, fbDeletes_clear, fbDeletes_nil,
    fbDeletes_cons_of_not, isFbCmd]

theorem fbCreates_get_copy_effect (cache : Option Nat) (fresh : Nat) :
    fbCreates (get_copy_effect cache fresh).2.2 = [] := by
  cases cache <;> rfl

theorem fbDeletes_get_copy_effect (cache : Option Nat) (fresh : Nat) :
    fbDeletes (get_copy_effect cache fresh).2.2 = [] := by
  cases cache <;> rfl

theorem fbCreates_get_copy_array_effect (cache : Option Nat) (fresh : Nat) :
    fbCreates (get_copy_array_effect cache fresh).2.2 = [] := by
  cases cache <;> rfl

theorem fbDeletes_get_copy_array_effect (cache : Option Nat) (fresh : Nat) :
    fbDeletes (get_copy_array_effect cache fresh).2.2 = [] := by
  cases cache <;> rfl

/-- No RenderTarget operation creates or deletes a framebuffer beyond what
its user closure does. -/
theorem RTOp_trace_fb (rt : RenderTarget) (op : RTOp) :
    fbCreates (op.trace rt) = fbCreates op.closureTrace
    ∧ fbDeletes (op.trace rt) = fbDeletes op.closureTrace := by
  cases op with
  | writeOp c render =>
    exact ⟨fbCreates_rt_write rt c render, fbDeletes_rt_write rt c render⟩
  | copyToScreenOp cache fresh =>
    rcases rt with ⟨i, ct, dt⟩
    cases ct <;> cases dt <;>
      constructor <;>
      simp [RTOp.trace, RTOp.closureTrace, RenderTarget.copy_to_screen,
        fbCreates_screen_write, fbDeletes_screen_write, fbCreates_append,
        fbDeletes_append, fbCreates_get_copy_effect, fbDeletes_get_copy_effect,
        fbCreates_nil, fbDeletes_nil, fbCreates_cons_of_not,
        fbDeletes_cons_of_not, isFbCmd]
  | copyColorToScreenOp cache fresh =>
    rcases rt with ⟨i, ct, dt⟩
    cases ct <;> cases dt <;>
      constructor <;>
      simp [RTOp.trace, RTOp.closureTrace, RenderTarget.copy_color_to_screen,
        fbCreates_screen_write, fbDeletes_screen_write, fbCreates_append,
        fbDeletes_append, fbCreates_get_copy_effect, fbDeletes_get_copy_effect,
        fbCreates_nil, fbDeletes_nil, fbCreates_cons_of_not,
        fbDeletes_cons_of_not, isFbCmd]
  | copyDepthToScreenOp cache fresh =>
    rcases rt with ⟨i, ct, dt⟩
    cases ct <;> cases dt <;>
      constructor <;>
      simp [RTOp.trace, RTOp.closureTrace, RenderTarget.copy_depth_to_screen,
        fbCreates_screen_write, fbDeletes_screen_write, fbCreates_append,
        fbDeletes_append, fbCreates_get_copy_effect, fbDeletes_get_copy_effect,
        fbCreates_nil, fbDeletes_nil, fbCreates_cons_of_not,
        fbDeletes_cons_of_not, isFbCmd]
  | copyOp other cache fresh =>
    rcases rt with ⟨i, ct, dt⟩
    cases ct <;> cases dt <;> cases hc2 : other.color_texture <;>
        cases hd2 : other.depth_texture <;>
      constructor <;>
      simp [RTOp.trace, RTOp.closureTrace, RenderTarget.copy, hc2, hd2,
        fbCreates_rt_write, fbDeletes_rt_write, fbCreates_append,
        fbDeletes_append, fbCreates_get_copy_effect, fbDeletes_get_copy_effect,
        fbCreates_nil, fbDeletes_nil, fbCreates_cons_of_not,
        fbDeletes_cons_of_not, isFbCmd]
  | copyColorOp other cache fresh =>
    rcases rt with ⟨i, ct, dt⟩
    cases ct <;> cases dt <;> cases hc2 : other.color_texture <;>
        cases hd2 : other.depth_texture <;>
      constructor <;>
      simp [RTOp.trace, RTOp.closureTrace, RenderTarget.copy_color, hc2, hd2,
        fbCreates_rt_write, fbDeletes_rt_write, fbCreates_append,
        fbDeletes_append, fbCreates_get_copy_effect, fbDeletes_get_copy_effect,
        fbCreates_nil, fbDeletes_nil, fbCreates_cons_of_not,
        fbDeletes_cons_of_not, isFbCmd]
  | copyDepthOp other cache fresh =>
    rcases rt with ⟨i, ct, dt⟩
    cases ct <;> cases dt <;> cases hc2 : other.color_texture <;>
        cases hd2 : other.depth_texture <;>
      constructor <;>
      simp [RTOp.trace, RTOp.closureTrace, RenderTarget.copy_depth, hc2, hd2,
        fbCreates_rt_write, fbDeletes_rt_write, fbCreates_append,
        fbDeletes_append, fbCreates_get_copy_effect, fbDeletes_get_copy_effect,
        fbCreates_nil, fbDeletes_nil, fbCreates_cons_of_not,
        fbDeletes_cons_of_not, isFbCmd]

/-- No RenderTargetArray operation creates or deletes a framebuffer beyond
what its user closure does. -/
theorem RTAOp_trace_fb (rt : RenderTargetArray) (op : RTAOp) :
    fbCreates (op.trace rt) = fbCreates op.closureTrace
    ∧ fbDeletes (op.trace rt) = fbDeletes op.closureTrace := by
  cases op with
  | writeOp c ls dl render =>
    exact ⟨fbCreates_rta_write rt c ls dl render,
           fbDeletes_rta_write rt c ls dl render⟩
  | copyToScreenOp cl dl cache fresh =>
    rcases rt with ⟨i, ct, dt⟩
    cases ct <;> cases dt <;>
      constructor <;>
      simp [RTAOp.trace, RTAOp.closureTrace, RenderTargetArray.copy_to_screen,
        fbCreates_screen_write, fbDeletes_screen_write, fbCreates_append,
        fbDeletes_append, fbCreates_get_copy_array_effect,
        fbDeletes_get_copy_array_effect, fbCreates_nil, fbDeletes_nil, fbCreates_cons_of_not,
        fbDeletes_cons_of_not, isFbCmd]
  | copyColorToScreenOp cl cache fresh =>
    rcases rt with ⟨i, ct, dt⟩
    cases ct <;> cases dt <;>
      constructor <;>
      simp [RTAOp.trace, RTAOp.closureTrace,
        RenderTargetArray.copy_color_to_screen, fbCreates_screen_write,
        fbDeletes_screen_write, fbCreates_append, fbDeletes_append,
        fbCreates_get_copy_array_effect, fbDeletes_get_copy_array_effect,
        fbCreates_nil, fbDeletes_nil, fbCreates_cons_of_not,
        fbDeletes_cons_of_not, isFbCmd]
  | copyDepthToScreenOp dl cache fresh =>
    rcases rt with ⟨i, ct, dt⟩
    cases ct <;> cases dt <;>
      constructor <;>
      simp [RTAOp.trace, RTAOp.closureTrace,
        RenderTargetArray.copy_depth_to_screen, fbCreates_screen_write,
        fbDeletes_screen_write, fbCreates_append, fbDeletes_append,
        fbCreates_get_copy_array_effect, fbDeletes_get_copy_array_effect,
        fbCreates_nil, fbDeletes_nil, fbCreates_cons_of_not,
        fbDeletes_cons_of_not, isFbCmd]
  | copyOp cl dl other cache fresh =>
    rcases rt with ⟨i, ct, dt⟩
    cases ct <;> cases dt <;> cases hc2 : other.color_texture <;>
        cases hd2 : other.depth_texture <;>
      constructor <;>
      simp [RTAOp.trace, RTAOp.closureTrace, RenderTargetArray.copy, hc2, hd2,
        fbCreates_rt_write, fbDeletes_rt_write, fbCreates_append,
        fbDeletes_append, fbCreates_get_copy_array_effect,
        fbDeletes_get_copy_array_effect, fbCreates_nil, fbDeletes_nil, fbCreates_cons_of_not,
        fbDeletes_cons_of_not, isFbCmd]
  | copyColorOp cl other cache fresh =>
    rcases rt with ⟨i, ct, dt⟩
    cases ct <;> cases dt <;> cases hc2 : other.color_texture <;>
        cases hd2 : other.depth_texture <;>
      constructor <;>
      simp [RTAOp.trace, RTAOp.closureTrace, RenderTargetArray.copy_color,
        hc2, hd2, fbCreates_rt_write, fbDeletes_rt_write, fbCreates_append,
        fbDeletes_append, fbCreates_get_copy_array_effect,
        fbDeletes_get_copy_array_effect, fbCreates_nil, fbDeletes_nil, fbCreates_cons_of_not,
        fbDeletes_cons_of_not, isFbCmd]
  | copyDepthOp dl other cache fresh =>
    rcases rt with ⟨i, ct, dt⟩
    cases ct <;> cases dt <;> cases hc2 : other.color_texture <;>
        cases hd2 : other.depth_texture <;>
      constructor <;>
      simp [RTAOp.trace, RTAOp.closureTrace, RenderTargetArray.copy_depth,
        hc2, hd2, fbCreates_rt_write, fbDeletes_rt_write, fbCreates_append,
        fbDeletes_append, fbCreates_get_copy_array_effect,
        fbDeletes_get_copy_array_effect, fbCreates_nil, fbDeletes_nil, fbCreates_cons_of_not,
        fbDeletes_cons_of_not, isFbCmd]

/-- The concatenated trace of a sequence of RenderTarget operations. -/
def rtOpsTrace (rt : RenderTarget) (ops : List RTOp) : List GLCmd :=
  (ops.map (RTOp.trace rt)).flatten

/-- The concatenated trace of a sequence of RenderTargetArray operations. -/
def rtaOpsTrace (rt : RenderTargetArray) (ops : List RTAOp) : List GLCmd :=
  (ops.map (RTAOp.trace rt)).flatten

/-- The whole-lifetime trace of a RenderTarget: construction, the operations
performed on it, then the drop. -/
def rtLifecycle (res : Option Nat) (colorTex depthTex : Nat) (rt : RenderTarget)
    (ops : List RTOp) : List GLCmd :=
  (RenderTarget.new res colorTex depthTex).1 ++ rtOpsTrace rt ops ++ rt.dropTrace

/-- The whole-lifetime trace of a RenderTargetArray. -/
def rtaLifecycle (res : Option Nat) (colorTex depthTex : Nat)
    (rt : RenderTargetArray) (ops : List RTAOp) : List GLCmd :=
  (RenderTargetArray.new res colorTex depthTex).1 ++ rtaOpsTrace rt ops ++ rt.dropTrace

theorem rtOpsTrace_fb (rt : RenderTarget) (ops : List RTOp)
    (hclean : ∀ op ∈ ops, fbCreates op.closureTrace = []
      ∧ fbDeletes op.closureTrace = []) :
    fbCreates (rtOpsTrace rt ops) = [] ∧ fbDeletes (rtOpsTrace rt ops) = [] := by
  induction ops with
  | nil => exact ⟨rfl, rfl⟩
  | cons op rest ih =>
    have h1 := RTOp_trace_fb rt op
    have h2 := hclean op (List.mem_cons_self op rest)
    have h3 := ih fun o ho => hclean o (List.mem_cons_of_mem op ho)
    have e1 : rtOpsTrace rt (op :: rest) = RTOp.trace rt op ++ rtOpsTrace rt rest := by
      simp [rtOpsTrace]
    rw [e1]
    constructor
    · rw [fbCreates_append, h1.1, h2.1, h3.1]
      rfl
    · rw [fbDeletes_append, h1.2, h2.2, h3.2]
      rfl

theorem rtaOpsTrace_fb (rt : RenderTargetArray) (ops : List RTAOp)
    (hclean : ∀ op ∈ ops, fbCreates op.closureTrace = []
      ∧ fbDeletes op.closureTrace = []) :
    fbCreates (rtaOpsTrace rt ops) = [] ∧ fbDeletes (rtaOpsTrace rt ops) = [] := by
  induction ops with
  | nil => exact ⟨rfl, rfl⟩
  | cons op rest ih =>
    have h1 := RTAOp_trace_fb rt op
    have h2 := hclean op (List.mem_cons_self op rest)
    have h3 := ih fun o ho => hclean o (List.mem_cons_of_mem op ho)
    have e1 : rtaOpsTrace rt (op :: rest) = RTAOp.trace rt op ++ rtaOpsTrace rt rest := by
      simp [rtaOpsTrace]
    rw [e1]
    constructor
    · rw [fbCreates_append, h1.1, h2.1, h3.1]
      rfl
    · rw [fbDeletes_append, h1.2, h2.2, h3.2]
      rfl

/-- C4: framebuffer handles are RAII-managed. A successfully constructed
RenderTarget (or RenderTargetArray) allocates exactly one framebuffer at
construction; no operation between construction and drop (whose user render
closures do not themselves create or delete framebuffers) creates or deletes
any framebuffer; the drop deletes exactly the constructed framebuffer; so
over the whole lifetime the constructed framebuffer is created once and
deleted exactly once. -/
theorem C4_framebuffer_raii (res resA : Option Nat) (colorTex depthTex : Nat)
    (rt : RenderTarget) (rta : RenderTargetArray) (ops : List RTOp)
    (opsA : List RTAOp)
    (hok : (RenderTarget.new res colorTex depthTex).2 = Except.ok rt)
    (hokA : (RenderTargetArray.new resA colorTex depthTex).2 = Except.ok rta)
    (hclean : ∀ op ∈ ops, fbCreates op.closureTrace = []
      ∧ fbDeletes op.closureTrace = [])
    (hcleanA : ∀ op ∈ opsA, fbCreates op.closureTrace = []
      ∧ fbDeletes op.closureTrace = []) :
    fbCreates (RenderTarget.new res colorTex depthTex).1 = [rt.id]
    ∧ fbDeletes (RenderTarget.new res colorTex depthTex).1 = []
    ∧ fbCreates (rtOpsTrace rt ops) = []
    ∧ fbDeletes (rtOpsTrace rt ops) = []
    ∧ rt.dropTrace = [GLCmd.deleteFramebuffer rt.id]
    ∧ fbCreates (rtLifecycle res colorTex depthTex rt ops) = [rt.id]
    ∧ fbDeletes (rtLifecycle res colorTex depthTex rt ops) = [rt.id]
    ∧ fbCreates (RenderTargetArray.new resA colorTex depthTex).1 = [rta.id]
    ∧ fbDeletes (RenderTargetArray.new resA colorTex depthTex).1 = []
    ∧ fbCreates (rtaOpsTrace rta opsA) = []
    ∧ fbDeletes (rtaOpsTrace rta opsA) = []
    ∧ rta.dropTrace = [GLCmd.deleteFramebuffer rta.id]
    ∧ fbCreates (rtaLifecycle resA colorTex depthTex rta opsA) = [rta.id]
    ∧ fbDeletes (rtaLifecycle resA colorTex depthTex rta opsA) = [rta.id] := by
  have hops := rtOpsTrace_fb rt ops hclean
  have hopsA := rtaOpsTrace_fb rta opsA hcleanA
  cases res with
  | none =>
    rw [RenderTarget.new] at hok
    simp [new_framebuffer, Except.map] at hok
  | some fb =>
    rw [RenderTarget.new] at hok
    simp [new_framebuffer, Except.map] at hok
    cases resA with
    | none =>
      rw [RenderTargetArray.new] at hokA
      simp [new_framebuffer, Except.map] at hokA
    | some fbA =>
      rw [RenderTargetArray.new] at hokA
      simp [new_framebuffer, Except.map] at hokA
      subst hok
      subst hokA
      refine ⟨rfl, rfl, hops.1, hops.2, rfl, ?_, ?_, rfl, rfl, hopsA.1,
        hopsA.2, rfl, ?_, ?_⟩ <;>
        simp [rtLifecycle, rtaLifecycle, RenderTarget.new,
          RenderTargetArray.new, new_framebuffer, fbCreates_append,
          fbDeletes_append, hops.1, hops.2, hopsA.1, hopsA.2,
          RenderTarget.dropTrace, RenderTargetArray.dropTrace, fbCreates,
          fbDeletes]

/-- Witness for C4 at concrete inputs: a render target built on framebuffer 7
with one write whose closure is clean, and an array target on framebuffer 8
with no operations. -/
theorem C4_framebuffer_raii_witness :
    fbCreates (rtLifecycle (some 7) 1 2
      { id := 7, color_texture := some 1, depth_texture := some 2 }
      [RTOp.writeOp ClearState.default ([GLCmd.drawArrays 3], Except.ok ())]) = [7]
    ∧ fbDeletes (rtLifecycle (some 7) 1 2
      { id := 7, color_texture := some 1, depth_texture := some 2 }
      [RTOp.writeOp ClearState.default ([GLCmd.drawArrays 3], Except.ok ())]) = [7]
    ∧ fbDeletes (rtaLifecycle (some 8) 1 2
      { id := 8, color_texture := some 1, depth_texture := some 2 } []) = [8] := by
  have h := C4_framebuffer_raii (some 7) (some 8) 1 2
    { id := 7, color_texture := some 1, depth_texture := some 2 }
    { id := 8, color_texture := some 1, depth_texture := some 2 }
    [RTOp.writeOp ClearState.default ([GLCmd.drawArrays 3], Except.ok ())] []
    (by rfl) (by rfl)
    (by intro op hop
        rcases List.mem_singleton.mp hop with rfl
        exact ⟨rfl, rfl⟩)
    (by intro op hop
        cases hop)
  exact ⟨h.2.2.2.2.2.1, h.2.2.2.2.2.2.1, h.2.2.2.2.2.2.2.2.2.2.2.2.2⟩

/-- DebugType (deferred_pipeline.rs:13). -/
inductive DebugType where
  | POSITION
  | NORMAL
  | COLOR
  | DEPTH
  | DIFFUSE
  | SPECULAR
  | POWER
  | NONE
  deriving DecidableEq, Repr

/-- The discriminant used by `self.debug_type as i32`. -/
def DebugType.toInt : DebugType → Int
  | DebugType.POSITION => 0
  | DebugType.NORMAL => 1
  | DebugType.COLOR => 2
  | DebugType.DEPTH => 3
  | DebugType.DIFFUSE => 4
  | DebugType.SPECULAR => 5
  | DebugType.POWER => 6
  | DebugType.NONE => 7

/-- Texture format of the g-buffer color texture. -/
inductive Format where
  | RGBA8
  deriving DecidableEq, Repr

/-- Texture format of the g-buffer depth texture. -/
inductive DepthFormat where
  | Depth32F
  deriving DecidableEq, Repr

/-- A color 2D-array texture as allocated by the pipeline (the texture
constructor lives outside the given files and is modelled as an allocation
with a fresh id; the fixed Nearest filtering and ClampToEdge wrapping
arguments of the call are not tracked). -/
structure ColorTargetTexture2DArray where
  id : Nat
  width : Nat
  height : Nat
  layers : Nat
  fmt : Format
  deriving DecidableEq, Repr

/-- A depth 2D-array texture as allocated by the pipeline. -/
structure DepthTargetTexture2DArray where
  id : Nat
  width : Nat
  height : Nat
  layers : Nat
  fmt : DepthFormat
  deriving DecidableEq, Repr

/-- PhongDeferredPipeline (deferred_pipeline.rs:28): the debug setting, the
map from light-configuration keys to compiled light-pass programs, the lazy
debug effect, and the stored geometry-pass textures. -/
structure PhongDeferredPipeline where
  debug_type : DebugType
  program_map : List (String × Nat)
  debug_effect : Option Nat
  geometry_pass_texture : Option ColorTargetTexture2DArray
  geometry_pass_depth_texture : Option DepthTargetTexture2DArray
  deriving DecidableEq, Repr

/-- HashMap::get on the program map. -/
def mapFind (key : String) : List (String × Nat) → Option Nat
  | [] => Option.none
  | (k, v) :: rest => if k = key then some v else mapFind key rest

/-- The light-configuration key of light_pass (deferred_pipeline.rs:169):
`format!("{},{},{},{}", ambient_light.is_some(), directional_lights.len(),
spot_lights.len(), point_lights.len())`. -/
def lightKey (ambient : Bool) (nDir nSpot nPoint : Nat) : String :=
  toString ambient ++ "," ++ toString nDir ++ "," ++ toString nSpot ++ ","
    ++ toString nPoint

/-- PhongDeferredPipeline::new (deferred_pipeline.rs:44): empty program map,
no debug effect, debug type NONE, and 1x1 geometry textures (2 color layers,
1 depth layer) allocated up front. `alloc` is the next fresh texture id. -/
def PhongDeferredPipeline.new (alloc : Nat) : PhongDeferredPipeline × Nat :=
  ({ debug_type := DebugType.NONE, program_map := [], debug_effect := Option.none,
     geometry_pass_texture := some
       { id := alloc, width := 1, height := 1, layers := 2, fmt := Format.RGBA8 },
     geometry_pass_depth_texture := some
       { id := alloc + 1, width := 1, height := 1, layers := 1,
         fmt := DepthFormat.Depth32F } },
   alloc + 2)

/-- PhongDeferredPipeline::geometry_pass (deferred_pipeline.rs:82): allocate
fresh geometry textures of the requested size (color: 2 layers RGBA8, depth:
1 layer Depth32F), store them in the pipeline, and render the closure into
them through a temporary RenderTargetArray (color layers [0, 1], depth layer
0, default clear state); the temporary render target's framebuffer is
created and dropped within the call. -/
def geometry_pass (p : PhongDeferredPipeline) (alloc : Nat) (width height : Nat)
    (render : List GLCmd × Except GLError Unit) :
    (PhongDeferredPipeline × Nat) × List GLCmd × Except GLError Unit :=
  let colorTex : ColorTargetTexture2DArray :=
    { id := alloc, width := width, height := height, layers := 2,
      fmt := Format.RGBA8 }
  let depthTex : DepthTargetTexture2DArray :=
    { id := alloc + 1, width := width, height := height, layers := 1,
      fmt := DepthFormat.Depth32F }
  let p2 := { p with geometry_pass_texture := some colorTex,
                     geometry_pass_depth_texture := some depthTex }
  let rta : RenderTargetArray :=
    { id := alloc + 2, color_texture := some colorTex.id,
      depth_texture := some depthTex.id }
  let w := rta.write ClearState.default [0, 1] 0 render
  ((p2, alloc + 3),
   GLCmd.createFramebuffer (alloc + 2) :: w.1 ++ [GLCmd.deleteFramebuffer (alloc + 2)],
   w.2)

/-- PhongDeferredPipeline::light_pass (deferred_pipeline.rs:125). With a
debug type set, the lazily created debug effect visualizes the stored
geometry textures. Otherwise the light-pass program for the given light
configuration is compiled on first use and cached in program_map, the lights
are bound (crate::phong::bind_lights, outside the given files, modelled as
one command carrying the given lights), the stored geometry-pass textures are
bound as gbuffer and depthMap, camera uniforms are set when any non-ambient
light is present, and the effect is applied. `alloc` is the next fresh
program id; panics on missing geometry textures surface as `unwrapPanic`. -/
def light_pass (p : PhongDeferredPipeline) (alloc : Nat) (ambient : Bool)
    (nDir nSpot nPoint : Nat) :
    (PhongDeferredPipeline × Nat) × List GLCmd × Except GLError Unit :=
  match p.geometry_pass_texture, p.geometry_pass_depth_texture with
  | some gt, some dt =>
    if p.debug_type ≠ DebugType.NONE then
      let dbg := match p.debug_effect with
        | some e => (e, alloc, ([] : List GLCmd))
        | Option.none => (alloc, alloc + 1, [GLCmd.compileEffect alloc])
      (({ p with debug_effect := some dbg.1 }, dbg.2.1),
       dbg.2.2
         ++ [GLCmd.useUniformMat4 "viewProjectionInverse",
             GLCmd.useTexture gt.id "gbuffer",
             GLCmd.useTexture dt.id "depthMap",
             GLCmd.useUniformInt "type" p.debug_type.toInt,
             GLCmd.applyEffect dbg.1 WriteMask.default],
       Except.ok ())
    else
      let key := lightKey ambient nDir nSpot nPoint
      let sel := match mapFind key p.program_map with
        | some e => (p.program_map, e, ([] : List GLCmd), alloc)
        | Option.none =>
          ((key, alloc) :: p.program_map, alloc, [GLCmd.compileEffect alloc],
           alloc + 1)
      let camCmds := if nDir + nSpot + nPoint > 0 then
          [GLCmd.useUniformVec3 "eyePosition",
           GLCmd.useUniformMat4 "viewProjectionInverse"]
        else []
      (({ p with program_map := sel.1 }, sel.2.2.2),
       sel.2.2.1
         ++ [GLCmd.bindLights ambient nDir nSpot nPoint,
             GLCmd.useTexture gt.id "gbuffer",
             GLCmd.useTexture dt.id "depthMap"]
         ++ camCmds
         ++ [GLCmd.applyEffect sel.2.1 WriteMask.default],
       Except.ok ())
  | _, _ => ((p, alloc), [], Except.error GLError.unwrapPanic)

/-- The texture bindings (texture id, uniform name) in a trace. -/
def texBinds : List GLCmd → List (Nat × String)
  | [] => []
  | GLCmd.useTexture t n :: rest => (t, n) :: texBinds rest
  | _ :: rest => texBinds rest

/-- C1: the deferred pipeline is a two-pass renderer. geometry_pass writes
into a fresh internal 2-layer color texture array and depth texture of the
requested size (binding exactly those textures as the render target, color
layers [0, 1] and depth layer 0, with the user closure rendered in between)
and stores them in the pipeline; a following light_pass reads exactly those
stored textures, binding them as gbuffer and depthMap, together with the
given ambient/directional/spot/point lights. -/
theorem C1_deferred_two_pass (p : PhongDeferredPipeline) (alloc w h : Nat)
    (tr : List GLCmd) (amb : Bool) (nDir nSpot nPoint : Nat)
    (hdbg : p.debug_type = DebugType.NONE) :
    (geometry_pass p alloc w h (tr, Except.ok ())).1.1.geometry_pass_texture =
      some { id := alloc, width := w, height := h, layers := 2,
             fmt := Format.RGBA8 }
    ∧ (geometry_pass p alloc w h (tr, Except.ok ())).1.1.geometry_pass_depth_texture =
      some { id := alloc + 1, width := w, height := h, layers := 1,
             fmt := DepthFormat.Depth32F }
    ∧ GLCmd.bindColorTargetLayer alloc 0 0 ∈ (geometry_pass p alloc w h (tr, Except.ok ())).2.1
    ∧ GLCmd.bindColorTargetLayer alloc 1 1 ∈ (geometry_pass p alloc w h (tr, Except.ok ())).2.1
    ∧ GLCmd.bindDepthTargetLayer (alloc + 1) 0 ∈ (geometry_pass p alloc w h (tr, Except.ok ())).2.1
    ∧ List.IsInfix tr (geometry_pass p alloc w h (tr, Except.ok ())).2.1
    ∧ texBinds (light_pass (geometry_pass p alloc w h (tr, Except.ok ())).1.1
        (geometry_pass p alloc w h (tr, Except.ok ())).1.2 amb nDir nSpot nPoint).2.1 =
      [(alloc, "gbuffer"), (alloc + 1, "depthMap")]
    ∧ GLCmd.bindLights amb nDir nSpot nPoint ∈
        (light_pass (geometry_pass p alloc w h (tr, Except.ok ())).1.1
          (geometry_pass p alloc w h (tr, Except.ok ())).1.2 amb nDir nSpot nPoint).2.1 := by
  refine ⟨rfl, rfl, ?_, ?_, ?_, ?_, ?_, ?_⟩
  · simp [geometry_pass, RenderTargetArray.write, RenderTargetArray.bind,
      List.enum]
  · simp [geometry_pass, RenderTargetArray.write, RenderTargetArray.bind,
      List.enum]
  · simp [geometry_pass, RenderTargetArray.write, RenderTargetArray.bind,
      List.enum]
  · refine ⟨GLCmd.createFramebuffer (alloc + 2) ::
      ({ id := alloc + 2, color_texture := some alloc,
         depth_texture := some (alloc + 1) } : RenderTargetArray).bind
        (some [0, 1]) (some 0)
      ++ clear (maskedBy (some alloc) (some (alloc + 1)) ClearState.default),
      [GLCmd.generateMipMaps alloc, GLCmd.deleteFramebuffer (alloc + 2)], ?_⟩
    simp [geometry_pass, RenderTargetArray.write]
  · cases hsel : mapFind (lightKey amb nDir nSpot nPoint) p.program_map <;>
      by_cases hl : nDir + nSpot + nPoint > 0 <;>
      simp [light_pass, geometry_pass, hdbg, hsel, hl, texBinds]
  · cases hsel : mapFind (lightKey amb nDir nSpot nPoint) p.program_map <;>
      by_cases hl : nDir + nSpot + nPoint > 0 <;>
      simp [light_pass, geometry_pass, hdbg, hsel, hl]

/-- Witness for C1 at a concrete pipeline with one directional and two point
lights. -/
theorem C1_deferred_two_pass_witness :
    texBinds (light_pass
        (geometry_pass (PhongDeferredPipeline.new 0).1 2 4 3
          ([GLCmd.drawArrays 3], Except.ok ())).1.1
        (geometry_pass (PhongDeferredPipeline.new 0).1 2 4 3
          ([GLCmd.drawArrays 3], Except.ok ())).1.2 true 1 0 2).2.1 =
      [(2, "gbuffer"), (3, "depthMap")]
    ∧ GLCmd.bindLights true 1 0 2 ∈
        (light_pass
          (geometry_pass (PhongDeferredPipeline.new 0).1 2 4 3
            ([GLCmd.drawArrays 3], Except.ok ())).1.1
          (geometry_pass (PhongDeferredPipeline.new 0).1 2 4 3
            ([GLCmd.drawArrays 3], Except.ok ())).1.2 true 1 0 2).2.1 := by
  have h := C1_deferred_two_pass (PhongDeferredPipeline.new 0).1 2 4 3
    [GLCmd.drawArrays 3] true 1 0 2 rfl
  exact ⟨h.2.2.2.2.2.2.1, h.2.2.2.2.2.2.2⟩

/-- The lazy PROGRAM_COLOR static of Mesh::render_with_color (mesh.rs:256,
371): compiled on first use, afterwards the cached program is reused with no
compilation. The statics PROGRAM_TEXTURE, PROGRAM_DEPTH and
PROGRAM_PER_VERTEX_COLOR have the same shape. -/
def mesh_program_color (cache : Option Nat) (fresh : Nat) :
    Option Nat × Nat × List GLCmd :=
  match cache with
  | some pgm => (some pgm, pgm, [])
  | Option.none => (some fresh, fresh, [GLCmd.compileEffect fresh])

/-- The number of shader-program compilations in a trace. -/
def compilesIn : List GLCmd → Nat
  | [] => 0
  | GLCmd.compileEffect _ :: rest => compilesIn rest + 1
  | _ :: rest => compilesIn rest

/-- Counterexample to C5 at the concrete initial (empty) copy-effect static:
after one get_copy_effect call the static retains the compiled program
(state `some 0`, which is state other than the currently bound
framebuffer/texture), and the next call returns that retained program again
while emitting no compilation — a component does retain a computed result
(a compiled shader program) across calls for reuse on later calls. -/
theorem C5_no_cache_counterexample :
    (get_copy_effect Option.none 0).1 = some 0
    ∧ get_copy_effect (get_copy_effect Option.none 0).1 1 = (some 0, 0, []) := by
  decide

/-- C5 amended: the program does maintain caches of compiled shader
programs: get_copy_effect and get_copy_array_effect keep the copy effects in
statics, the default mesh programs are kept in statics, and light_pass keeps
one compiled program per light configuration in program_map — each compiled
on first use and returned with no recompilation afterwards. -/
theorem C5_shader_program_caches (e fresh alloc : Nat)
    (p : PhongDeferredPipeline) (amb : Bool) (nDir nSpot nPoint : Nat)
    (gt : ColorTargetTexture2DArray) (dt : DepthTargetTexture2DArray)
    (hgt : p.geometry_pass_texture = some gt)
    (hdt : p.geometry_pass_depth_texture = some dt)
    (hdbg : p.debug_type = DebugType.NONE) :
    get_copy_effect (some e) fresh = (some e, e, [])
    ∧ get_copy_effect Option.none fresh =
        (some fresh, fresh, [GLCmd.compileEffect fresh])
    ∧ get_copy_array_effect (some e) fresh = (some e, e, [])
    ∧ get_copy_array_effect Option.none fresh =
        (some fresh, fresh, [GLCmd.compileEffect fresh])
    ∧ mesh_program_color (some e) fresh = (some e, e, [])
    ∧ mesh_program_color Option.none fresh =
        (some fresh, fresh, [GLCmd.compileEffect fresh])
    ∧ (mapFind (lightKey amb nDir nSpot nPoint) p.program_map = some e →
        compilesIn (light_pass p alloc amb nDir nSpot nPoint).2.1 = 0
        ∧ GLCmd.applyEffect e WriteMask.default ∈
            (light_pass p alloc amb nDir nSpot nPoint).2.1
        ∧ (light_pass p alloc amb nDir nSpot nPoint).1.1.program_map =
            p.program_map)
    ∧ (mapFind (lightKey amb nDir nSpot nPoint) p.program_map = Option.none →
        compilesIn (light_pass p alloc amb nDir nSpot nPoint).2.1 = 1
        ∧ mapFind (lightKey amb nDir nSpot nPoint)
            (light_pass p alloc amb nDir nSpot nPoint).1.1.program_map =
          some alloc) := by
  refine ⟨rfl, rfl, rfl, rfl, rfl, rfl, ?_, ?_⟩
  · intro hsel
    by_cases hl : nDir + nSpot + nPoint > 0 <;>
      simp [light_pass, hgt, hdt, hdbg, hsel, hl, compilesIn]
  · intro hsel
    by_cases hl : nDir + nSpot + nPoint > 0 <;>
      simp [light_pass, hgt, hdt, hdbg, hsel, hl, compilesIn, mapFind]

/-- Witness for C5's amended claim: the copy-effect static returns the cached
program, and a second light_pass with the same light configuration as a first
one recompiles nothing and leaves its program map unchanged. -/
theorem C5_shader_program_caches_witness :
    get_copy_effect (some 10) 1 = (some 10, 10, [])
    ∧ compilesIn (light_pass
        (light_pass (PhongDeferredPipeline.new 0).1 10 true 1 0 0).1.1
        11 true 1 0 0).2.1 = 0
    ∧ (light_pass (light_pass (PhongDeferredPipeline.new 0).1 10 true 1 0 0).1.1
        11 true 1 0 0).1.1.program_map =
      (light_pass (PhongDeferredPipeline.new 0).1 10 true 1 0 0).1.1.program_map := by
  have h := C5_shader_program_caches 10 1 11
    (light_pass (PhongDeferredPipeline.new 0).1 10 true 1 0 0).1.1
    true 1 0 0
    { id := 0, width := 1, height := 1, layers := 2, fmt := Format.RGBA8 }
    { id := 1, width := 1, height := 1, layers := 1, fmt := DepthFormat.Depth32F }
    (by decide) (by decide) (by decide)
  have hhit := h.2.2.2.2.2.2.1 (by decide)
  exact ⟨h.1, hhit.1, hhit.2.2⟩

/-- A configuration of the set_main_loop loop: either still running (with the
loop state and the number of main_loop invocations so far) or returned to the
caller. -/
inductive LoopCfg (S : Type) where
  | running : S → Nat → LoopCfg S
  | returned : S → Nat → LoopCfg S

/-- One step of the non-emscripten set_main_loop (renderer.rs:12):
`loop { main_loop(); }` — a running configuration unconditionally invokes
main_loop and keeps running; there is no transition into `returned`. -/
def set_main_loop_step {S : Type} (mainLoop : S → S) : LoopCfg S → LoopCfg S
  | LoopCfg.running s k => LoopCfg.running (mainLoop s) (k + 1)
  | LoopCfg.returned s k => LoopCfg.returned s k

/-- The configuration after n steps of set_main_loop started on state s. -/
def set_main_loop_run {S : Type} (mainLoop : S → S) (s : S) : Nat → LoopCfg S
  | 0 => LoopCfg.running s 0
  | n + 1 => set_main_loop_step mainLoop (set_main_loop_run mainLoop s n)

/-- C6: the non-emscripten set_main_loop drives the closure forever: after
any number n of steps the loop is still running, having invoked main_loop
exactly n times (so the invocation count grows without bound), and no number
of steps reaches a returned configuration — set_main_loop never returns to
its caller. -/
theorem C6_main_loop_never_returns {S : Type} (f : S → S) (s : S) (n : Nat) :
    set_main_loop_run f s n = LoopCfg.running (f^[n] s) n
    ∧ (∀ t k, set_main_loop_run f s n ≠ LoopCfg.returned t k) := by
  induction n with
  | zero =>
    exact ⟨rfl, by intro t k h; cases h⟩
  | succ n ih =>
    have e1 : set_main_loop_run f s (n + 1)
        = set_main_loop_step f (set_main_loop_run f s n) := rfl
    rw [e1, ih.1]
    constructor
    · show LoopCfg.running (f (f^[n] s)) (n + 1) = LoopCfg.running (f^[n + 1] s) (n + 1)
      rw [Function.iterate_succ_apply' f n s]
    · intro t k h
      cases h

/-- Witness for C6 at a concrete loop over Nat successor: after 3 steps the
loop is still running with 3 invocations. -/
theorem C6_main_loop_never_returns_witness :
    set_main_loop_run (fun n => n + 1) 0 3 = LoopCfg.running 3 3
    ∧ (∀ t k, set_main_loop_run (fun n => n + 1) 0 3 ≠ LoopCfg.returned t k) :=
  ⟨(C6_main_loop_never_returns (fun n => n + 1) 0 3).1,
   (C6_main_loop_never_returns (fun n => n + 1) 0 3).2⟩

/-- Texture wrapping modes (the definition lives outside the given files;
the variants are the ones skybox.rs uses plus the usual alternatives). -/
inductive Wrapping where
  | ClampToEdge
  | Repeat
  | MirroredRepeat
  deriving DecidableEq, Repr

/-- Texture interpolation modes. -/
inductive Interpolation where
  | Nearest
  | Linear
  deriving DecidableEq, Repr

/-- CPUTexture, modelled from its use in skybox.rs (the struct definition
lives outside the given files): the pixel data and size, the three wrap
modes and the mip-map filter that Skybox::new overwrites, and `rest`
standing for all remaining fields (carried at an arbitrary type). -/
structure CPUTexture (α ρ : Type) where
  data : List α
  width : Nat
  height : Nat
  wrap_s : Wrapping
  wrap_t : Wrapping
  wrap_r : Wrapping
  mip_map_filter : Option Interpolation
  rest : ρ

/-- Skybox (skybox.rs:9): shader program, cube vertex buffer, cube-map
texture id. -/
structure Skybox where
  program : Nat
  vertex_buffer : VertexBuffer
  texture : Nat
  deriving DecidableEq, Repr

/-- get_positions (skybox.rs:72): the 36 cube corner positions. -/
def get_positions : List F32 :=
  [1, 1, -1, -1, 1, -1, 1, 1, 1, -1, 1, 1, 1, 1, 1, -1, 1,
   -1, -1, -1, -1, 1, -1, -1, 1, -1, 1, 1, -1, 1, -1, -1, 1,
   -1, -1, -1, 1, -1, -1, -1, -1, -1, 1, 1, -1, -1, 1, -1, 1,
   1, -1, -1, -1, -1, -1, -1, 1, 1, -1, 1, 1, 1, 1, 1, 1, 1,
   -1, 1, 1, -1, -1, 1, 1, -1, -1, 1, 1, -1, 1, 1, 1, 1, 1,
   1, 1, -1, 1, 1, -1, -1, -1, 1, -1, -1, -1, -1, -1, 1, 1,
   -1, -1, 1, -1, 1, 1, -1, -1, -1]

/-- Skybox::new_with_texture (skybox.rs:25): compile the skybox program
(Program::from_source lives outside the given files; its result is a
parameter), upload the cube positions, and assemble the skybox. -/
def Skybox.new_with_texture (ctx : GLCtx) (progRes : Except GLError Nat)
    (texture : Nat) : Except GLError Skybox := do
  let pgm ← progRes
  let vb ← ctx.newVertexBufferF32 get_positions
  Except.ok { program := pgm, vertex_buffer := vb, texture := texture }

/-- Skybox::new (skybox.rs:16): first overwrite the wrap modes of the given
CPU texture with ClampToEdge and its mip-map filter with None (the argument
is passed by &mut, so the caller observes these writes), then upload it as a
cube map (TextureCubeMap::new_with_u8 lives outside the given files; it is a
parameter) and build the skybox. Returns the mutated CPU texture together
with the construction result. -/
def Skybox.new {α ρ : Type} (ctx : GLCtx) (progRes : Except GLError Nat)
    (newCubeMap : CPUTexture α ρ → Except GLError Nat)
    (cpu : CPUTexture α ρ) : CPUTexture α ρ × Except GLError Skybox :=
  let cpu2 := { cpu with wrap_t := Wrapping.ClampToEdge,
                         wrap_s := Wrapping.ClampToEdge,
                         wrap_r := Wrapping.ClampToEdge,
                         mip_map_filter := Option.none }
  (cpu2, do
    let t ← newCubeMap cpu2
    Skybox.new_with_texture ctx progRes t)

/-- C10: after Skybox::new, the cpu_texture argument has wrap_s, wrap_t and
wrap_r equal to ClampToEdge and mip_map_filter equal to None regardless of
their values on entry, and every other field is unchanged. -/
theorem C10_skybox_mutates_cpu_texture {α ρ : Type} (ctx : GLCtx)
    (progRes : Except GLError Nat)
    (newCubeMap : CPUTexture α ρ → Except GLError Nat)
    (cpu : CPUTexture α ρ) :
    (Skybox.new ctx progRes newCubeMap cpu).1.wrap_s = Wrapping.ClampToEdge
    ∧ (Skybox.new ctx progRes newCubeMap cpu).1.wrap_t = Wrapping.ClampToEdge
    ∧ (Skybox.new ctx progRes newCubeMap cpu).1.wrap_r = Wrapping.ClampToEdge
    ∧ (Skybox.new ctx progRes newCubeMap cpu).1.mip_map_filter = Option.none
    ∧ (Skybox.new ctx progRes newCubeMap cpu).1.data = cpu.data
    ∧ (Skybox.new ctx progRes newCubeMap cpu).1.width = cpu.width
    ∧ (Skybox.new ctx progRes newCubeMap cpu).1.height = cpu.height
    ∧ (Skybox.new ctx progRes newCubeMap cpu).1.rest = cpu.rest :=
  ⟨rfl, rfl, rfl, rfl, rfl, rfl, rfl, rfl⟩

end ThreeD
